import Mathlib

/-!
Verification development for the KML-to-WPML converter (`kmlconverter.py`).

The Python source is shallowly embedded below:
* Python strings are Lean `String`s; `str.strip`, `str.lower`, `str.split`,
  the `in` substring test and `str.isdigit` are re-implemented on `List Char`.
* Python `float(...)` is modelled by `pyFloat : String → Option ℚ`, covering the
  sign / integer / decimal-point core of the accepted syntax (exponents, `inf`,
  `nan` and underscores do not occur in the inputs the converter handles);
  `none` models the raised `ValueError`.
* Python dicts with possibly-missing keys are records of `Option`-wrapped
  fields: `none` is "key absent" and, for fields whose Python value may itself
  be `None`, a second `Option` layer distinguishes a stored `None`.
* A Python exception escaping a code region is modelled by an `Option` result
  (`none` = exception), matching the converter's outer `try/except` handlers.
* Generated XML documents are modelled structurally: one record field or list
  entry per interpolated value of the f-string template, in emission order.
-/

namespace KmlConv

/-- Whitespace recognised by the model of Python `str.strip`. -/
def isSpaceChar (c : Char) : Bool :=
  c == ' ' || c == '\t' || c == '\n' || c == '\r' || c == '\x0b' || c == '\x0c'

/-- Remove leading and trailing whitespace from a character list. -/
def stripList (l : List Char) : List Char :=
  ((l.dropWhile isSpaceChar).reverse.dropWhile isSpaceChar).reverse

/-- Model of Python `str.strip()`. -/
def stripStr (s : String) : String :=
  String.mk (stripList s.data)

/-- Model of Python `str.lower()` (ASCII case folding). -/
def lowerStr (s : String) : String :=
  String.mk (s.data.map Char.toLower)

/-- Test `leadsWith n h`: true when `n` is an initial segment of `h`. -/
def leadsWith : List Char → List Char → Bool
  | [], _ => true
  | _ :: _, [] => false
  | a :: as, b :: bs => a == b && leadsWith as bs

/-- Test `hasSubList n h`: true when `n` occurs contiguously inside `h`;
the model of Python's `n in h` on strings. -/
def hasSubList (n : List Char) : List Char → Bool
  | [] => leadsWith n []
  | c :: rest => leadsWith n (c :: rest) || hasSubList n rest

/-- Python `n in h` for strings. -/
def hasSubStr (n h : String) : Bool :=
  hasSubList n.data h.data

/-- Model of Python `str.split(sep)` for a one-character separator, on
character lists (`"".split(sep)` is `['']`). -/
def splitChar (sep : Char) : List Char → List (List Char)
  | [] => [[]]
  | c :: rest =>
    let r := splitChar sep rest
    if c == sep then [] :: r
    else
      match r with
      | h :: t => (c :: h) :: t
      | [] => [[c]]

/-- ASCII decimal digit test. -/
def isDigitChar (c : Char) : Bool :=
  '0' ≤ c && c ≤ '9'

/-- Numeric value of a digit list (most significant first). -/
def digitsVal (l : List Char) : Nat :=
  l.foldl (fun n c => 10 * n + (c.toNat - 48)) 0

/-- All characters are ASCII digits. -/
def allDigits (l : List Char) : Bool :=
  l.all isDigitChar

/-- Model of Python `str.isdigit()` for the ASCII inputs at hand:
nonempty and all digits. -/
def isDigitStr (s : String) : Bool :=
  !s.data.isEmpty && allDigits s.data

/-- Split a character list at the first `.`; the second component is `none`
when no dot occurs. -/
def splitAtDot : List Char → List Char × Option (List Char)
  | [] => ([], none)
  | '.' :: rest => ([], some rest)
  | c :: rest =>
    let p := splitAtDot rest
    (c :: p.1, p.2)

/-- Model of Python `float(...)` on a character list: optional surrounding
whitespace, optional sign, decimal digits with an optional fractional part
(at least one digit overall).  `none` models the raised `ValueError`. -/
def pyFloatL (chars : List Char) : Option ℚ :=
  let l := stripList chars
  let sgn : ℚ × List Char :=
    match l with
    | '-' :: rest => (-1, rest)
    | '+' :: rest => (1, rest)
    | _ => (1, l)
  let p := splitAtDot sgn.2
  match p.2 with
  | none =>
    if !p.1.isEmpty && allDigits p.1 then some (sgn.1 * (digitsVal p.1 : ℚ)) else none
  | some fp =>
    if (!p.1.isEmpty || !fp.isEmpty) && allDigits p.1 && allDigits fp then
      some (sgn.1 * ((digitsVal p.1 : ℚ) + (digitsVal fp : ℚ) / ((10 : ℚ) ^ fp.length)))
    else none

/-- Model of Python `float(s)` on a string. -/
def pyFloat (s : String) : Option ℚ :=
  pyFloatL s.data

/-- Python truthiness of an optional string (`None` and `""` are falsy). -/
def strTruthy : Option String → Bool
  | none => false
  | some s => s != ""

/-- The `actions` dict built by `extract_waypoint_actions`.  Each field models
one dict key; the outer `Option` is key presence (`none` = key absent, as in
the reduced dict attached to LineString-fallback waypoints), and for
`photo_action`, `video_action` and `heading` the inner `Option` distinguishes a
stored Python `None`. -/
structure WaypointActions where
  stop_at_waypoint : Option Bool
  photo_action : Option (Option String)
  video_action : Option (Option String)
  speed : Option ℚ
  heading_mode : Option String
  heading : Option (Option ℚ)
  gimbal_pitch : Option ℚ
  hovering_time : Option Nat
deriving DecidableEq

/-- The default `actions` dict of `extract_waypoint_actions` (all keys
present). -/
def defaultActions : WaypointActions :=
  { stop_at_waypoint := some true
    photo_action := some none
    video_action := some none
    speed := some 5
    heading_mode := some "smoothTransition"
    heading := some none
    gimbal_pitch := some (-90)
    hovering_time := some 0 }

/-- The reduced `actions` dict attached to waypoints built on the LineString
fallback path (`{'stop_at_waypoint': False, 'speed': 5.0}`). -/
def fallbackActions : WaypointActions :=
  { stop_at_waypoint := some false
    photo_action := none
    video_action := none
    speed := some 5
    heading_mode := none
    heading := none
    gimbal_pitch := none
    hovering_time := none }

/-- A descendant element of the `ExtendedData` block as seen by
`extended_data.iter()`: its local tag name (namespace already split off), its
text, and its `param` attribute (`none` = attribute absent). -/
structure XElem where
  tag : String
  text : Option String
  param : Option String
deriving DecidableEq

/-- A `kml:Data` entry under `ExtendedData`: its `name` attribute (the code
reads it with default `''`) and its `kml:value` text. -/
structure DataEntry where
  name : String
  value : Option String
deriving DecidableEq

/-- The `ExtendedData` element of a placemark: its descendant elements in
iteration order, and its `kml:Data` entries. -/
structure ExtData where
  elems : List XElem
  dataEntries : List DataEntry
deriving DecidableEq

/-- A parsed KML `Placemark` as consumed by the extractor: the results of the
element lookups the code performs (namespace-qualified first, plain second;
the model records the first match).  `nameElem`/`coordinates` distinguish a
missing element (outer `none`) from an element whose `.text` is Python `None`
(inner `none`). -/
structure Placemark where
  nameElem : Option (Option String)
  hasPoint : Bool
  coordinates : Option (Option String)
  description : Option String
  extendedData : Option ExtData
  misActions : List (Option String × Option String)
  misSpeed : List (Option String)
  misPointType : List (Option String)
  misGimbalPitch : List (Option String)
  misHeading : List (Option String)
deriving DecidableEq

/-- A parsed KML document as consumed by `extract_coordinates_from_kml`:
its placemarks, and its `LineString` elements (each recorded, like
`coordinates` above, as presence of a `coordinates` child and its text). -/
structure KmlDoc where
  placemarks : List Placemark
  linestrings : List (Option (Option String))
deriving DecidableEq

/-- The stop/continuous keyword branch of the description tier
(lines 107-113), over the lowercased description text. -/
def descStop (dt : String) (a : WaypointActions) : WaypointActions :=
  if hasSubStr "continuous" dt || hasSubStr "continuo" dt then
    { a with stop_at_waypoint := some false }
  else if hasSubStr "stop" dt || hasSubStr "parada" dt || hasSubStr "hover" dt then
    { a with stop_at_waypoint := some true }
  else a

/-- The camera keyword branch of the description tier (lines 115-121), over
the lowercased description text. -/
def descCamera (dt : String) (a : WaypointActions) : WaypointActions :=
  if hasSubStr "photo" dt || hasSubStr "foto" dt then
    { a with photo_action := some (some "single") }
  else if hasSubStr "video" dt then
    let v := if hasSubStr "start" dt then "start" else "record"
    { a with video_action := some (some v) }
  else a

/-- Description tier of `extract_waypoint_actions` (lines 103-121): keyword
matching on the lowercased description text, skipped for a missing or empty
description. -/
def applyDesc (desc : Option String) (a : WaypointActions) : WaypointActions :=
  match desc with
  | none => a
  | some s =>
    if s == "" then a
    else descCamera (lowerStr s) (descStop (lowerStr s) a)

/-- The Hovering parameter: `int(param) if param.isdigit() else 1000`. -/
def hoverParam (param : String) : Nat :=
  if isDigitStr param then digitsVal param.data else 1000

/-- One step of the `ExtendedData` tier (lines 127-165).  `none` models the
uncaught `ValueError` of `float(elem.text)`. -/
def applyExtElem (a : WaypointActions) (e : XElem) : Option WaypointActions :=
  if e.tag == "pointType" then
    match e.text with
    | some t =>
      if t == "" then some a
      else if lowerStr t == "linestop" then some { a with stop_at_waypoint := some true }
      else if lowerStr t == "line" then some { a with stop_at_waypoint := some false }
      else some a
    | none => some a
  else if e.tag == "speed" then
    match e.text with
    | some t =>
      if t == "" then some a
      else
        match pyFloat t with
        | some q => some { a with speed := some q }
        | none => none
    | none => some a
  else if e.tag == "heading" then
    match e.text with
    | some t =>
      if t == "" then some a
      else
        match pyFloat t with
        | some q => some { a with heading := some (some q) }
        | none => none
    | none => some a
  else if e.tag == "gimbalPitch" then
    match e.text with
    | some t =>
      if t == "" then some a
      else
        match pyFloat t with
        | some q => some { a with gimbal_pitch := some q }
        | none => none
    | none => some a
  else if e.tag == "actions" then
    let param := e.param.getD "0"
    match e.text with
    | some "ShootPhoto" => some { a with photo_action := some (some "single") }
    | some "Hovering" => some { a with hovering_time := some (hoverParam param) }
    | some "StartRecord" => some { a with video_action := some (some "start") }
    | some "StopRecord" => some { a with video_action := some (some "stop") }
    | _ => some a
  else some a

/-- One step of the `mis:actions` tier (lines 169-178): only `ShootPhoto` and
`Hovering` are recognised here. -/
def applyMisAction (a : WaypointActions) (e : Option String × Option String) :
    WaypointActions :=
  let param := e.2.getD "0"
  match e.1 with
  | some "ShootPhoto" => { a with photo_action := some (some "single") }
  | some "Hovering" => { a with hovering_time := some (hoverParam param) }
  | _ => a

/-- One step of the `mis:speed` tier (lines 181-184). -/
def applyMisSpeed (a : WaypointActions) (t : Option String) : Option WaypointActions :=
  match t with
  | some s =>
    if s == "" then some a
    else
      match pyFloat s with
      | some q => some { a with speed := some q }
      | none => none
  | none => some a

/-- One step of the `mis:pointType` tier (lines 186-193). -/
def applyMisPointType (a : WaypointActions) (t : Option String) : WaypointActions :=
  match t with
  | some s =>
    if s == "" then a
    else if lowerStr s == "linestop" then { a with stop_at_waypoint := some true }
    else if lowerStr s == "line" then { a with stop_at_waypoint := some false }
    else a
  | none => a

/-- One step of the `mis:gimbalPitch` tier (lines 195-198). -/
def applyMisGimbal (a : WaypointActions) (t : Option String) : Option WaypointActions :=
  match t with
  | some s =>
    if s == "" then some a
    else
      match pyFloat s with
      | some q => some { a with gimbal_pitch := some q }
      | none => none
  | none => some a

/-- One step of the `mis:heading` tier (lines 200-203). -/
def applyMisHeading (a : WaypointActions) (t : Option String) : Option WaypointActions :=
  match t with
  | some s =>
    if s == "" then some a
    else
      match pyFloat s with
      | some q => some { a with heading := some (some q) }
      | none => none
  | none => some a

/-- One step of the `kml:Data` tier (lines 207-217). -/
def applyDataEntry (a : WaypointActions) (d : DataEntry) : Option WaypointActions :=
  match d.value with
  | some v =>
    if v == "" then some a
    else if lowerStr d.name == "speed" then
      match pyFloat v with
      | some q => some { a with speed := some q }
      | none => none
    else if lowerStr d.name == "action" && hasSubStr "continuous" (lowerStr v) then
      some { a with stop_at_waypoint := some false }
    else some a
  | none => some a

/-- Model of `extract_waypoint_actions` (lines 89-219): the four signal tiers applied
in program order, starting from the default dict.  `none` models an uncaught
`ValueError` from numeric conversion in any tier. -/
def extract_waypoint_actions (pm : Placemark) : Option WaypointActions :=
  (match pm.extendedData with
   | some ed => ed.elems.foldlM applyExtElem (applyDesc pm.description defaultActions)
   | none => some (applyDesc pm.description defaultActions)).bind fun a2 =>
  (pm.misSpeed.foldlM applyMisSpeed (pm.misActions.foldl applyMisAction a2)).bind fun a4 =>
  (pm.misGimbalPitch.foldlM applyMisGimbal
    (pm.misPointType.foldl applyMisPointType a4)).bind fun a6 =>
  (pm.misHeading.foldlM applyMisHeading a6).bind fun a7 =>
  match pm.extendedData with
  | some ed => ed.dataEntries.foldlM applyDataEntry a7
  | none => some a7

/-- A canonical waypoint record as built by `extract_coordinates_from_kml`. -/
structure Waypoint where
  name : Option String
  longitude : ℚ
  latitude : ℚ
  altitude : ℚ
  index : Nat
  actions : WaypointActions
deriving DecidableEq

/-- Outcome of parsing one coordinate line. -/
inductive CoordParse where
  | tooShort
  | failed
  | ok (lon lat alt : ℚ)
deriving DecidableEq

/-- Coordinate parsing on the primary (point placemark) path, lines 272-277:
split on commas, require at least two parts, altitude defaults to `50.0` when
the third part is absent or blank. -/
def parseCoordPrimary (line : List Char) : CoordParse :=
  match splitChar ',' line with
  | c0 :: c1 :: rest =>
    match pyFloatL (stripList c0), pyFloatL (stripList c1) with
    | some lon, some lat =>
      match rest with
      | [] => .ok lon lat 50
      | c2 :: _ =>
        if (stripList c2).isEmpty then .ok lon lat 50
        else
          match pyFloatL (stripList c2) with
          | some alt => .ok lon lat alt
          | none => .failed
    | _, _ => .failed
  | _ => .tooShort

/-- The waypoint name: the `name` element's text when the element exists,
otherwise the synthetic `Waypoint_<n>` with `n = len(waypoints) + 1`. -/
def nameOf (pm : Placemark) (k : Nat) : Option String :=
  match pm.nameElem with
  | none => some ("Waypoint_" ++ toString (k + 1))
  | some t => t

/-- Processing of one point placemark on the primary path (lines 250-292).
`none` models an exception escaping to the outer handler: a `coordinates`
element whose `.text` is `None` (the `.strip()` call raises before the inner
`try`), or a numeric `ValueError` inside `extract_waypoint_actions` (invoked
outside the inner `try`).  A coordinate-parsing failure is caught by the inner
`except (ValueError, IndexError)` and only skips the entry. -/
def processPlacemark (acc : List Waypoint) (pm : Placemark) : Option (List Waypoint) :=
  match pm.coordinates with
  | none => some acc
  | some none => none
  | some (some ctext) =>
    match extract_waypoint_actions pm with
    | none => none
    | some acts =>
      match parseCoordPrimary (stripList ((splitChar '\n' (stripList ctext.data)).headD [])) with
      | .ok lon lat alt =>
        some (acc ++ [{ name := nameOf pm acc.length, longitude := lon, latitude := lat,
                        altitude := alt, index := acc.length, actions := acts }])
      | _ => some acc

/-- A waypoint built on the LineString fallback path (lines 316-323): the
synthetic name and the `index` both come from the position `i` of the line in
the coordinate text, not from the number of waypoints accepted so far. -/
def mkFallbackWp (i : Nat) (lon lat alt : ℚ) : Waypoint :=
  { name := some ("Waypoint_" ++ toString (i + 1)), longitude := lon, latitude := lat,
    altitude := alt, index := i, actions := fallbackActions }

/-- Processing of one enumerated coordinate line on the LineString fallback
path (lines 311-325).  There is no inner `try` here: a `float` failure (also
on an empty third part) escapes as `none` and aborts the whole extraction. -/
def processFallbackLine (acc : List Waypoint) (il : Nat × List Char) :
    Option (List Waypoint) :=
  if (stripList il.2).isEmpty then some acc
  else
    match splitChar ',' (stripList il.2) with
    | c0 :: c1 :: rest =>
      match pyFloatL c0 with
      | none => none
      | some lon =>
        match pyFloatL c1 with
        | none => none
        | some lat =>
          match rest with
          | [] => some (acc ++ [mkFallbackWp il.1 lon lat 50])
          | c2 :: _ =>
            match pyFloatL c2 with
            | none => none
            | some alt => some (acc ++ [mkFallbackWp il.1 lon lat alt])
    | _ => some acc

/-- Processing of one `LineString` element (lines 302-325): missing
`coordinates` child skips the element; a `.text` of `None` raises (the
`.strip()` call); otherwise every line of the text is processed in enumeration
order. -/
def processLineString (acc : List Waypoint) (ls : Option (Option String)) :
    Option (List Waypoint) :=
  match ls with
  | none => some acc
  | some none => none
  | some (some ctext) =>
    (splitChar '\n' (stripList ctext.data)).enum.foldlM processFallbackLine acc

/-- Model of `extract_coordinates_from_kml` (lines 221-332): the primary point-placemark
path, then the LineString fallback when it produced nothing; the outer
`except Exception` turns any escaped error into an empty result. -/
def extract_coordinates_from_kml (doc : KmlDoc) : List Waypoint :=
  match (doc.placemarks.filter (·.hasPoint)).foldlM processPlacemark [] with
  | none => []
  | some wps =>
    if wps.isEmpty then
      match doc.linestrings.foldlM processLineString [] with
      | none => []
      | some ws => ws
    else wps

/-- One entry of the drone catalog (`self.drone_configs`). -/
structure DroneConfig where
  enum : Nat
  name : String
  subtype : Nat
  payload_enum : Nat
  payload_name : String
  description : String
deriving DecidableEq

/-- The `mavic3t` catalog entry, the canonical default profile. -/
def mavic3tConfig : DroneConfig :=
  { enum := 77, name := "DJI Mavic 3T", subtype := 1, payload_enum := 67,
    payload_name := "Mavic 3T Camera", description := "Mavic 3 Enterprise Series (M3T Camera)" }

/-- The `mavic3e` catalog entry. -/
def mavic3eConfig : DroneConfig :=
  { enum := 77, name := "DJI Mavic 3E", subtype := 0, payload_enum := 66,
    payload_name := "Mavic 3E Camera", description := "Mavic 3 Enterprise Series (M3E Camera)" }

/-- The `matrice4e` catalog entry. -/
def matrice4eConfig : DroneConfig :=
  { enum := 99, name := "DJI Matrice 4E", subtype := 0, payload_enum := 88,
    payload_name := "DJI Matrice 4E Camera", description := "DJI Matrice 4 Series (M4E Camera)" }

/-- The `matrice4t` catalog entry. -/
def matrice4tConfig : DroneConfig :=
  { enum := 99, name := "DJI Matrice 4T", subtype := 1, payload_enum := 89,
    payload_name := "DJI Matrice 4T Camera", description := "DJI Matrice 4 Series (M4T Camera)" }

/-- The `matrice350` catalog entry. -/
def matrice350Config : DroneConfig :=
  { enum := 89, name := "Matrice 350 RTK", subtype := 0, payload_enum := 42,
    payload_name := "Zenmuse H20", description := "Matrice 350 RTK" }

/-- The `matrice300` catalog entry. -/
def matrice300Config : DroneConfig :=
  { enum := 60, name := "Matrice 300 RTK", subtype := 0, payload_enum := 42,
    payload_name := "Zenmuse H20", description := "Matrice 300 RTK" }

/-- The `matrice30` catalog entry. -/
def matrice30Config : DroneConfig :=
  { enum := 67, name := "Matrice 30", subtype := 0, payload_enum := 52,
    payload_name := "Matrice 30 Camera", description := "Matrice 30" }

/-- The `matrice30t` catalog entry. -/
def matrice30tConfig : DroneConfig :=
  { enum := 67, name := "Matrice 30T", subtype := 1, payload_enum := 53,
    payload_name := "Matrice 30T Camera", description := "Matrice 30T" }

/-- The drone catalog (lines 16-81), as a lookup by device identifier. -/
def droneConfigs : String → Option DroneConfig
  | "mavic3t" => some mavic3tConfig
  | "mavic3e" => some mavic3eConfig
  | "matrice4e" => some matrice4eConfig
  | "matrice4t" => some matrice4tConfig
  | "matrice350" => some matrice350Config
  | "matrice300" => some matrice300Config
  | "matrice30" => some matrice30Config
  | "matrice30t" => some matrice30tConfig
  | _ => none

/-- The `if drone_type not in self.drone_configs: drone_type = 'mavic3t'`
fallback followed by the catalog lookup (lines 341-344 and 537-541). -/
def resolveConfig (drone_type : String) : DroneConfig :=
  match droneConfigs drone_type with
  | some c => c
  | none => mavic3tConfig

/-- Lookup `actions.get('speed', 5.0)`. -/
def getSpeed (a : WaypointActions) : ℚ :=
  a.speed.getD 5

/-- Lookup `actions.get('stop_at_waypoint', True)`. -/
def getStop (a : WaypointActions) : Bool :=
  a.stop_at_waypoint.getD true

/-- Lookup `actions.get('heading')`: key absent and stored `None` both give `None`. -/
def getHeading (a : WaypointActions) : Option ℚ :=
  a.heading.getD none

/-- Lookup `actions.get('gimbal_pitch', -90.0)`. -/
def getGimbal (a : WaypointActions) : ℚ :=
  a.gimbal_pitch.getD (-90)

/-- Lookup `actions.get('hovering_time', 0)`. -/
def getHover (a : WaypointActions) : Nat :=
  a.hovering_time.getD 0

/-- Truthiness of `actions.get('photo_action')`. -/
def photoTruthy (a : WaypointActions) : Bool :=
  strTruthy (a.photo_action.getD none)

/-- Truthiness of `actions.get('video_action')`. -/
def videoTruthy (a : WaypointActions) : Bool :=
  strTruthy (a.video_action.getD none)

/-- Model of `math.radians(x)` on exact reals. -/
noncomputable def radiansOf (x : ℝ) : ℝ :=
  x * Real.pi / 180

/-- The haversine segment distance of lines 355-359 (Earth radius
`6371000` m), on exact reals. -/
noncomputable def haversineDist (lat1 lon1 lat2 lon2 : ℝ) : ℝ :=
  let dlat := radiansOf (lat2 - lat1)
  let dlon := radiansOf (lon2 - lon1)
  let a := Real.sin (dlat / 2) ^ 2 +
    Real.cos (radiansOf lat1) * Real.cos (radiansOf lat2) * Real.sin (dlon / 2) ^ 2
  let c := 2 * Real.arcsin (Real.sqrt a)
  6371000 * c

/-- The `total_distance` accumulation of lines 351-359: the haversine distance
summed over consecutive waypoint pairs. -/
noncomputable def segDistSum : List Waypoint → ℝ
  | [] => 0
  | [_] => 0
  | p :: q :: rest =>
    haversineDist (p.latitude : ℝ) (p.longitude : ℝ) (q.latitude : ℝ) (q.longitude : ℝ) +
      segDistSum (q :: rest)

/-- The `total_speed` accumulation of lines 362-364: the `speed` field summed
over every waypoint except the first. -/
def speedSum : List Waypoint → ℚ
  | [] => 0
  | [_] => 0
  | _ :: q :: rest => getSpeed q.actions + speedSum (q :: rest)

/-- The `average_speed` computation of line 367 (`speed_count` is
`len(waypoints) - 1`; the `5.0` branch covers `speed_count == 0`). -/
noncomputable def averageSpeed (wps : List Waypoint) : ℝ :=
  if 0 < wps.length - 1 then (speedSum wps : ℝ) / ((wps.length - 1 : Nat) : ℝ) else 5

/-- The condition under which `average_speed` is zero and the divisions of
lines 371 and 412 raise `ZeroDivisionError`: at least one tail segment
(`speed_count > 0`) whose accumulated `speed` fields sum to zero (reachable,
e.g., via a `mis:speed` text of `0` on every waypoint after the first). -/
def zeroAverageSpeed (wps : List Waypoint) : Bool :=
  decide (0 < wps.length - 1) && decide (speedSum wps = 0)

/-- Python `int(x)` on a float value: truncation toward zero. -/
noncomputable def pyTrunc (x : ℝ) : Int :=
  if 0 ≤ x then Int.floor x else Int.ceil x

/-- An action of the wayline document's per-waypoint action group. -/
inductive WaylineFunc where
  | hovering (hoverTime : Nat)
  | takePhoto
  | startRecord
  | stopRecord
deriving DecidableEq

/-- One `wpml:action` element of the wayline document. -/
structure WaylineAction where
  actionId : Nat
  func : WaylineFunc
deriving DecidableEq

/-- One `wpml:actionGroup` element of the wayline document (its constant
`actionGroupMode`/`actionTriggerType` fields are omitted from the model). -/
structure WaylineActionGroup where
  actionGroupId : Nat
  startIndex : Nat
  endIndex : Nat
  actions : List WaylineAction
deriving DecidableEq

/-- One `wpml:waypoint` element of the wayline document (lines 444-525). -/
structure WaylineWaypoint where
  index : Nat
  height : ℚ
  latitude : ℚ
  longitude : ℚ
  waypointSpeed : ℚ
  waypointHeadingMode : String
  waypointHeadingAngle : Option ℚ
  waypointTurnMode : String
  gimbalPitchAngle : ℚ
  actionGroup : Option WaylineActionGroup
deriving DecidableEq

/-- The variable parts of `waylines.wpml` (lines 382-531), in emission order;
the fixed template text around them is not modelled. -/
structure WaylineDoc where
  createTime : String
  missionName : String
  executeHeight : ℚ
  distance : ℝ
  duration : Int
  lineCoordinates : List (ℚ × ℚ × ℚ)
  waypoints : List WaylineWaypoint

/-- The `startRecord`/`stopRecord` dispatch of line 510. -/
def videoFunc (a : WaypointActions) : WaylineFunc :=
  if a.video_action.getD none == some "start" then .startRecord else .stopRecord

/-- The wayline action-group emission condition of line 473. -/
def hasWaylineSignal (a : WaypointActions) : Bool :=
  photoTruthy a || decide (0 < getHover a) || videoTruthy a

/-- The per-waypoint `wpml:waypoint` element of the wayline document
(lines 428-525): turn mode derived from `stop_at_waypoint`, heading mode from
heading presence, and the optional action group with its hover/photo/video
actions numbered by the `action_count` counter. -/
def waylineWaypointElem (wp : Waypoint) : WaylineWaypoint :=
  let a := wp.actions
  let stopAtWp := getStop a
  let heading := getHeading a
  let hoveringTime := getHover a
  let turnMode :=
    if stopAtWp then "toPointAndStopWithDiscontinuityCurvature"
    else "toPointAndPassWithContinuityCurvature"
  let headingMode := if heading.isSome then "followWayline" else "smoothTransition"
  let hovActs : List WaylineAction :=
    if 0 < hoveringTime then [{ actionId := 0, func := .hovering hoveringTime }] else []
  let photoActs : List WaylineAction :=
    if photoTruthy a then [{ actionId := hovActs.length, func := .takePhoto }] else []
  let vidActs : List WaylineAction :=
    if videoTruthy a then
      [{ actionId := hovActs.length + photoActs.length, func := videoFunc a }]
    else []
  let group : Option WaylineActionGroup :=
    if hasWaylineSignal a then
      some { actionGroupId := wp.index, startIndex := wp.index, endIndex := wp.index,
             actions := hovActs ++ photoActs ++ vidActs }
    else none
  { index := wp.index, height := wp.altitude, latitude := wp.latitude,
    longitude := wp.longitude, waypointSpeed := getSpeed a,
    waypointHeadingMode := headingMode, waypointHeadingAngle := heading,
    waypointTurnMode := turnMode, gimbalPitchAngle := getGimbal a, actionGroup := group }

/-- Model of `create_waylines_wpml` (lines 334-533).  `current_time` injects the
`datetime.now()` reading of line 339; the empty-waypoint early return of line
336 is modelled by `none`, and so is the `ZeroDivisionError` the function
raises at line 371 (`total_distance / average_speed`) when `average_speed` is
zero.  The drone config is looked up (lines 341-344) but, as in the source,
unused in the emitted document. -/
noncomputable def create_waylines_wpml (waypoints : List Waypoint) (mission_name : String)
    (drone_type : String) (current_time : String) : Option WaylineDoc :=
  match waypoints with
  | [] => none
  | w0 :: _ =>
    let _config := resolveConfig drone_type
    if zeroAverageSpeed waypoints then none
    else
      some { createTime := current_time
             missionName := mission_name
             executeHeight := w0.altitude
             distance := segDistSum waypoints
             duration := pyTrunc (segDistSum waypoints / averageSpeed waypoints +
               ((waypoints.length * 2 : Nat) : ℝ))
             lineCoordinates := waypoints.map fun wp => (wp.longitude, wp.latitude, wp.altitude)
             waypoints := waypoints.map waylineWaypointElem }

/-- An action of the template document's per-waypoint action group; payload
fields that vary are recorded, constant ones omitted.  `rotateYaw`'s heading
is the raw Python value of `actions.get('heading', 0)` (`none` renders as the
string `None`). -/
inductive TemplateFunc where
  | rotateYaw (aircraftHeading : Option ℚ)
  | gimbalRotate (pitchAngle : ℚ)
  | zoom
  | orientedShoot (pitchAngle : ℚ) (aircraftHeading : Option ℚ)
      (actionUUID : String) (cameraType : Nat)
deriving DecidableEq

/-- One `wpml:action` element of the template document. -/
structure TemplateAction where
  actionId : Nat
  func : TemplateFunc
deriving DecidableEq

/-- One `wpml:actionGroup` element of the template document. -/
structure TemplateActionGroup where
  actionGroupId : Nat
  startIndex : Nat
  endIndex : Nat
  actions : List TemplateAction
deriving DecidableEq

/-- One `Placemark` element of the template document (lines 600-716). -/
structure TemplatePlacemark where
  longitude : ℚ
  latitude : ℚ
  index : Nat
  ellipsoidHeight : ℚ
  height : ℚ
  gimbalPitchAngle : ℚ
  actionGroup : Option TemplateActionGroup
deriving DecidableEq

/-- The variable parts of `template.kml` (lines 549-721), in emission order. -/
structure TemplateDoc where
  createTime : Nat
  takeOffRefPoint : ℚ × ℚ × ℚ
  takeOffRefPointAGLHeight : ℚ
  droneEnumValue : Nat
  droneSubEnumValue : Nat
  payloadEnumValue : Nat
  globalShootHeight : ℚ
  placemarks : List TemplatePlacemark
deriving DecidableEq

/-- Lookup `actions.get('heading', 0)` of line 598: the default `0` applies only when
the key is absent; a stored Python `None` (the extractor's default) is
returned as-is and is modelled by `none`. -/
def templateHeadingVal (a : WaypointActions) : Option ℚ :=
  match a.heading with
  | none => some 0
  | some v => v

/-- The Python comparison `heading != 0` of line 632: `None != 0` is `True`. -/
def pyNeZero : Option ℚ → Bool
  | none => true
  | some x => x != 0

/-- The template action-group emission condition of line 615. -/
def hasTemplateSignal (a : WaypointActions) : Bool :=
  photoTruthy a || decide (0 < getHover a)

/-- The per-waypoint `Placemark` element of the template document
(lines 595-716): the optional action group holds a conditional `rotateYaw`, a
`gimbalRotate`, a `zoom`, and a conditional `orientedShoot`, numbered by the
`action_id` counter.  `action_uuid` injects the generated UUID of line 617. -/
def templatePlacemarkElem (config : DroneConfig) (action_uuid : String) (wp : Waypoint) :
    TemplatePlacemark :=
  let a := wp.actions
  let gimbalPitch := getGimbal a
  let heading := templateHeadingVal a
  let group : Option TemplateActionGroup :=
    if hasTemplateSignal a then
      let yawActs : List TemplateAction :=
        if pyNeZero heading then [{ actionId := 0, func := .rotateYaw heading }] else []
      let gimbalActs : List TemplateAction :=
        [{ actionId := yawActs.length, func := .gimbalRotate gimbalPitch }]
      let zoomActs : List TemplateAction :=
        [{ actionId := yawActs.length + 1, func := .zoom }]
      let photoActs : List TemplateAction :=
        if photoTruthy a then
          [{ actionId := yawActs.length + 2,
             func := .orientedShoot gimbalPitch heading action_uuid config.payload_enum }]
        else []
      some { actionGroupId := wp.index, startIndex := wp.index, endIndex := wp.index,
             actions := yawActs ++ gimbalActs ++ zoomActs ++ photoActs }
    else none
  { longitude := wp.longitude, latitude := wp.latitude, index := wp.index,
    ellipsoidHeight := wp.altitude, height := wp.altitude,
    gimbalPitchAngle := gimbalPitch, actionGroup := group }

/-- Model of `create_template_file` (lines 535-723).  `current_time` injects the
`time.time()` reading of line 544 and `action_uuid` the generated UUID;
`none` models the `IndexError` of `waypoints[0]` on an empty sequence
(line 547). -/
def create_template_file (waypoints : List Waypoint) (drone_type : String)
    (current_time : Nat) (action_uuid : String) : Option TemplateDoc :=
  let config := resolveConfig drone_type
  match waypoints with
  | [] => none
  | w0 :: _ =>
    some { createTime := current_time
           takeOffRefPoint := (w0.latitude, w0.longitude, w0.altitude)
           takeOffRefPointAGLHeight := w0.altitude
           droneEnumValue := config.enum
           droneSubEnumValue := config.subtype
           payloadEnumValue := config.payload_enum
           globalShootHeight := w0.altitude
           placemarks := waypoints.map (templatePlacemarkElem config action_uuid) }

/-- Model of `convert_kml_to_wpml` (lines 725-781), from a parsed input document to the
generated document pair: extraction, the empty-result failure return of lines
733-735, then both generators.  `none` models the `False` failure result. -/
noncomputable def convert_kml_to_wpml (doc : KmlDoc) (mission_name drone_type : String)
    (wayline_time : String) (template_time : Nat) (action_uuid : String) :
    Option (WaylineDoc × TemplateDoc) :=
  let waypoints := extract_coordinates_from_kml doc
  if waypoints.isEmpty then none
  else
    match create_waylines_wpml waypoints mission_name drone_type wayline_time,
        create_template_file waypoints drone_type template_time action_uuid with
    | some w, some t => some (w, t)
    | _, _ => none

/-! ### Signal classification helpers for the inference tiers -/

/-- Whether an `ExtendedData` descendant element writes `stop_at_waypoint`:
a `pointType` tag with truthy text equal (lowercased) to `linestop` or
`line`. -/
def extElemSetsStop (e : XElem) : Bool :=
  e.tag == "pointType" &&
    (match e.text with
     | some t => t != "" && (lowerStr t == "linestop" || lowerStr t == "line")
     | none => false)

/-- Whether a `kml:Data` entry writes `stop_at_waypoint`: a truthy value under
the `action` name containing `continuous`. -/
def dataEntrySetsStop (d : DataEntry) : Bool :=
  match d.value with
  | some v => v != "" && lowerStr d.name == "action" && hasSubStr "continuous" (lowerStr v)
  | none => false

/-- The `stop_at_waypoint` value (if any) written by one `mis:pointType`
text. -/
def ptVerdict (t : Option String) : Option Bool :=
  match t with
  | some s =>
    if s == "" then none
    else if lowerStr s == "linestop" then some true
    else if lowerStr s == "line" then some false
    else none
  | none => none

/-- The last `stop_at_waypoint` value written by a run of `mis:pointType`
elements (later entries win). -/
def lastVerdict : List (Option String) → Option Bool
  | [] => none
  | t :: ts =>
    match lastVerdict ts with
    | some b => some b
    | none => ptVerdict t

/-- The `ExtendedData` tier contains no `stop_at_waypoint` signal. -/
def extStopSilent (pm : Placemark) : Bool :=
  match pm.extendedData with
  | some ed => ed.elems.all (fun e => !extElemSetsStop e)
  | none => true

/-- The `mis:pointType` tier contains no `stop_at_waypoint` signal. -/
def misPtSilent (pm : Placemark) : Bool :=
  pm.misPointType.all (fun t => (ptVerdict t).isNone)

/-- The `kml:Data` tier contains no `stop_at_waypoint` signal. -/
def dataStopSilent (pm : Placemark) : Bool :=
  match pm.extendedData with
  | some ed => ed.dataEntries.all (fun d => !dataEntrySetsStop d)
  | none => true

/-- The declared vocabulary invariant for a stored `video_action` value. -/
def videoOK (v : Option (Option String)) : Prop :=
  ∀ s, v = some (some s) → s = "start" ∨ s = "record" ∨ s = "stop"

/-! ### Concrete fixtures used by witnesses and counterexamples -/

/-- A placemark whose description is just `continuous`. -/
def pmContinuous : Placemark :=
  { nameElem := none, hasPoint := true, coordinates := some (some "1,2,3"),
    description := some "continuous", extendedData := none, misActions := [], misSpeed := [],
    misPointType := [], misGimbalPitch := [], misHeading := [] }

/-- A placemark whose description says `stop` while a vendor `mis:pointType`
element says `line` (continuous). -/
def pmVendorStop : Placemark :=
  { nameElem := none, hasPoint := true, coordinates := some (some "1,2,3"),
    description := some "stop", extendedData := none, misActions := [], misSpeed := [],
    misPointType := [some "line"], misGimbalPitch := [], misHeading := [] }

/-- The default action dict with `stop_at_waypoint` forced to `False`. -/
def stopFalseActs : WaypointActions :=
  { defaultActions with stop_at_waypoint := some false }

/-- The default action dict with `video_action` set to `record`. -/
def videoRecordActs : WaypointActions :=
  { defaultActions with video_action := some (some "record") }

/-- A point placemark with plain coordinates and no action metadata. -/
def basePlacemark : Placemark :=
  { nameElem := none, hasPoint := true, coordinates := some (some "1,2,3"),
    description := none, extendedData := none, misActions := [], misSpeed := [],
    misPointType := [], misGimbalPitch := [], misHeading := [] }

/-- An input with no usable placemark and one LineString whose coordinate text
has a blank middle line. -/
def lsGapDoc : KmlDoc :=
  { placemarks := [], linestrings := [some (some "0,0\n\n1,1")] }

/-- An input with no usable placemark and one LineString whose middle
coordinate line fails numeric parsing. -/
def lsBadDoc : KmlDoc :=
  { placemarks := [], linestrings := [some (some "0,0,0\n0,x,0\n1,1,1")] }

/-- Document `lsBadDoc` with the unparsable middle line removed. -/
def lsGoodDoc : KmlDoc :=
  { placemarks := [], linestrings := [some (some "0,0,0\n1,1,1")] }

/-- An input with no placemarks and no LineStrings. -/
def emptyDoc : KmlDoc :=
  { placemarks := [], linestrings := [] }

/-- A placemark whose description contains `stop` and the Spanish stem
`continuo`, but not `continuous`. -/
def pmStopContinuo : Placemark :=
  { basePlacemark with description := some "stop continuo" }

/-- A placemark whose description is just `video`. -/
def pmVideoOnly : Placemark :=
  { basePlacemark with description := some "video" }

/-- A waypoint with the extractor's default action dict. -/
def wpBase : Waypoint :=
  { name := some "W", longitude := 1, latitude := 2, altitude := 3, index := 0,
    actions := defaultActions }

/-- A waypoint with a detected photo action and no detected heading (the
extractor's default `heading = None` is stored under the key). -/
def wpPhotoNoHeading : Waypoint :=
  { wpBase with actions := { defaultActions with photo_action := some (some "single") } }

/-- The first waypoint extracted from `docTwoPm`. -/
def wpW0 : Waypoint :=
  { name := some "Waypoint_1", longitude := 1, latitude := 2, altitude := 3, index := 0,
    actions := defaultActions }

/-- The second waypoint extracted from `docTwoPm`. -/
def wpW1 : Waypoint :=
  { name := some "Waypoint_2", longitude := 1, latitude := 2, altitude := 3, index := 1,
    actions := defaultActions }

/-- An input with two plain point placemarks. -/
def docTwoPm : KmlDoc :=
  { placemarks := [basePlacemark, basePlacemark], linestrings := [] }

/-- A point placemark whose coordinate text fails numeric parsing. -/
def pmBadCoord : Placemark :=
  { basePlacemark with coordinates := some (some "x,2") }

/-- Whether the comma-separated parts of a fallback coordinate line make its
`float` conversions raise. -/
def partsAbort : List (List Char) → Bool
  | c0 :: c1 :: rest =>
    (pyFloatL c0).isNone || (pyFloatL c1).isNone ||
      (match rest with
       | [] => false
       | c2 :: _ => (pyFloatL c2).isNone)
  | _ => false

/-- A fallback coordinate line that raises: nonempty, at least two
comma-separated parts, and one of the consulted parts fails `float`. -/
def lineAborts (l : List Char) : Bool :=
  !(stripList l).isEmpty && partsAbort (splitChar ',' (stripList l))

/-- A dummy waypoint used as the out-of-range default for positional access. -/
def wpDummy : Waypoint :=
  { name := none, longitude := 0, latitude := 0, altitude := 0, index := 0,
    actions := defaultActions }

/-- Positional access into the waypoint sequence. -/
def wpAt (wps : List Waypoint) (i : Nat) : Waypoint :=
  wps.getD i wpDummy

/-! ### Shape of the wayline generator on a nonempty sequence -/

/-- Unfolding of `create_waylines_wpml` on a nonempty waypoint sequence: the
result is the document record, guarded by the zero-mean-speed raise of
line 371. -/
theorem create_waylines_unfold (w0 : Waypoint) (rest : List Waypoint)
    (mn dt ct : String) :
    create_waylines_wpml (w0 :: rest) mn dt ct =
      (if zeroAverageSpeed (w0 :: rest) then none
       else
        some { createTime := ct
               missionName := mn
               executeHeight := w0.altitude
               distance := segDistSum (w0 :: rest)
               duration := pyTrunc (segDistSum (w0 :: rest) / averageSpeed (w0 :: rest) +
                 (((w0 :: rest).length * 2 : Nat) : ℝ))
               lineCoordinates :=
                 (w0 :: rest).map fun wp => (wp.longitude, wp.latitude, wp.altitude)
               waypoints := (w0 :: rest).map waylineWaypointElem }) := rfl

/-! ### Structural lemmas about the primary extraction path -/

/-- Step `processPlacemark` either keeps the accumulator unchanged or appends
exactly one waypoint whose `index` equals the accumulator's length. -/
theorem processPlacemark_shape {acc : List Waypoint} {pm : Placemark}
    {out : List Waypoint} (h : processPlacemark acc pm = some out) :
    out = acc ∨ ∃ w : Waypoint, out = acc ++ [w] ∧ w.index = acc.length := by
  unfold processPlacemark at h
  split at h
  · exact Or.inl (Option.some.inj h).symm
  · exact Option.noConfusion h
  · split at h
    · exact Option.noConfusion h
    · split at h
      · exact Or.inr ⟨_, (Option.some.inj h).symm, rfl⟩
      · exact Or.inl (Option.some.inj h).symm

/-- Folding `processPlacemark` preserves index contiguity: starting from an
accumulator whose indices are `0, 1, …`, every successful result again has
indices `0, 1, …`. -/
theorem foldPm_indices (pms : List Placemark) :
    ∀ acc out : List Waypoint, acc.map (·.index) = List.range acc.length →
      List.foldlM processPlacemark acc pms = some out →
      out.map (·.index) = List.range out.length := by
  induction pms with
  | nil =>
    intro acc out hacc h
    rw [List.foldlM_nil] at h
    obtain rfl := Option.some.inj h
    exact hacc
  | cons p ps ih =>
    intro acc out hacc h
    rw [List.foldlM_cons] at h
    cases hstep : processPlacemark acc p with
    | none =>
      rw [hstep] at h
      exact Option.noConfusion h
    | some mid =>
      rw [hstep] at h
      have h2 : List.foldlM processPlacemark mid ps = some out := h
      rcases processPlacemark_shape hstep with heq | ⟨w, heq, hidx⟩
      · subst heq
        exact ih _ _ hacc h2
      · subst heq
        refine ih _ _ ?_ h2
        rw [List.map_append, hacc, List.length_append]
        simp [hidx, List.range_succ]

/-- The index of a wayline `wpml:waypoint` element is its waypoint's index. -/
theorem waylineWaypointElem_index (wp : Waypoint) :
    (waylineWaypointElem wp).index = wp.index := rfl

/-- The index of a template `Placemark` element is its waypoint's index. -/
theorem templatePlacemarkElem_index (c : DroneConfig) (u : String) (wp : Waypoint) :
    (templatePlacemarkElem c u wp).index = wp.index := rfl

/-! ### C1 — index contiguity and per-waypoint elements -/

/-- C1 counterexample: on the LineString fallback path the `index` stored in a
waypoint is the position of its line inside the coordinate text (line 321),
so a skipped blank line leaves a gap — on `lsGapDoc` extraction yields two
waypoints with indices `[0, 2]`, which is not contiguous from 0. -/
theorem fallback_index_gap :
    ¬ ((extract_coordinates_from_kml lsGapDoc).map (·.index) =
        List.range (extract_coordinates_from_kml lsGapDoc).length) := by
  decide

/-- C1 (amended): on the primary point-placemark path the extracted `index`
values are contiguous from 0 (waypoint `k` holds index `k`, because the index
is assigned as `len(waypoints)` at append time, line 284), and whenever the
two generators run, each emits exactly one per-waypoint element per extracted
waypoint carrying that waypoint's `index` — so both documents use identical
index sequences whose length is the extracted count.  On the LineString
fallback path the documents still mirror the extracted indices one-for-one,
but those indices are source-line positions and need not be contiguous. -/
theorem extraction_and_documents_share_indices :
    (∀ (doc : KmlDoc) (wps : List Waypoint),
      (doc.placemarks.filter (·.hasPoint)).foldlM processPlacemark [] = some wps →
      wps.map (·.index) = List.range wps.length ∧
      (wps ≠ [] → extract_coordinates_from_kml doc = wps)) ∧
    (∀ (wps : List Waypoint) (mn dt ct : String) (tt : Nat) (u : String)
      (w : WaylineDoc) (t : TemplateDoc),
      create_waylines_wpml wps mn dt ct = some w →
      create_template_file wps dt tt u = some t →
      w.waypoints.map (·.index) = wps.map (·.index) ∧
      t.placemarks.map (·.index) = wps.map (·.index) ∧
      w.waypoints.length = wps.length ∧ t.placemarks.length = wps.length) := by
  constructor
  · intro doc wps hfold
    refine ⟨foldPm_indices _ [] wps rfl hfold, ?_⟩
    intro hne
    unfold extract_coordinates_from_kml
    rw [hfold]
    cases wps with
    | nil => exact absurd rfl hne
    | cons w0 rest => rfl
  · intro wps mn dt ct tt u w t hw ht
    cases wps with
    | nil =>
      exact Option.noConfusion hw
    | cons w0 rest =>
      rw [create_waylines_unfold] at hw
      split at hw
      · exact Option.noConfusion hw
      · obtain rfl := Option.some.inj hw
        simp only [create_template_file, Option.some.injEq] at ht
        subst ht
        refine ⟨?_, ?_, by simp, by simp⟩
        · simp [List.map_map, Function.comp_def, waylineWaypointElem_index]
        · simp [List.map_map, Function.comp_def, templatePlacemarkElem_index]

/-- C1 witness: the amended theorem applied to a two-placemark input and to
the documents generated from its extraction. -/
theorem extraction_and_documents_share_indices_witness :
    ((extract_coordinates_from_kml docTwoPm).map (·.index) =
        List.range (extract_coordinates_from_kml docTwoPm).length ∧
      extract_coordinates_from_kml docTwoPm = [wpW0, wpW1]) ∧
    (∃ (w : WaylineDoc) (t : TemplateDoc),
      create_waylines_wpml [wpW0, wpW1] "m" "mavic3t" "ct" = some w ∧
      create_template_file [wpW0, wpW1] "mavic3t" 0 "u" = some t ∧
      w.waypoints.map (·.index) = [wpW0, wpW1].map (·.index) ∧
      t.placemarks.map (·.index) = [wpW0, wpW1].map (·.index) ∧
      w.waypoints.length = 2 ∧ t.placemarks.length = 2) := by
  have hfold : (docTwoPm.placemarks.filter (·.hasPoint)).foldlM processPlacemark [] =
      some [wpW0, wpW1] := by with_unfolding_all decide
  have hx : extract_coordinates_from_kml docTwoPm = [wpW0, wpW1] :=
    (extraction_and_documents_share_indices.1 docTwoPm [wpW0, wpW1] hfold).2 (by decide)
  constructor
  · refine ⟨?_, hx⟩
    rw [hx]
    exact (extraction_and_documents_share_indices.1 docTwoPm [wpW0, wpW1] hfold).1
  · have hz : zeroAverageSpeed [wpW0, wpW1] = false := by with_unfolding_all decide
    cases hw : create_waylines_wpml [wpW0, wpW1] "m" "mavic3t" "ct" with
    | none => exact absurd hw (by simp [create_waylines_unfold, hz])
    | some w =>
      cases ht : create_template_file [wpW0, wpW1] "mavic3t" 0 "u" with
      | none => exact absurd ht (by simp [create_template_file])
      | some t =>
        obtain ⟨h1, h2, h3, h4⟩ :=
          extraction_and_documents_share_indices.2 [wpW0, wpW1] "m" "mavic3t" "ct" 0 "u" w t hw ht
        exact ⟨w, t, rfl, rfl, h1, h2, h3, h4⟩

/-! ### C3 — per-entry error handling in extraction -/

/-- Folding over `Option`: folding an appended list splits into sequential
folds. -/
theorem foldlM_opt_append {σ α : Type} (f : σ → α → Option σ) (l1 l2 : List α)
    (init : σ) :
    (l1 ++ l2).foldlM f init = (l1.foldlM f init) >>= fun mid => l2.foldlM f mid := by
  induction l1 generalizing init with
  | nil =>
    rw [List.nil_append, List.foldlM_nil]
    rfl
  | cons a rest ih =>
    rw [List.cons_append, List.foldlM_cons, List.foldlM_cons]
    cases h : f init a with
    | none => rfl
    | some mid => exact ih mid

/-- Folding over `Option`: one aborting element aborts the whole fold, from
any accumulator state. -/
theorem foldlM_opt_abort {σ α : Type} (f : σ → α → Option σ) {l : List α} {x : α}
    (hx : x ∈ l) (hab : ∀ s, f s x = none) :
    ∀ init, l.foldlM f init = none := by
  induction l with
  | nil => cases hx
  | cons a rest ih =>
    intro init
    rw [List.foldlM_cons]
    rcases List.mem_cons.mp hx with rfl | hx2
    · rw [hab init]; rfl
    · cases hstep : f init a with
      | none => rfl
      | some mid => exact ih hx2 mid

/-- A placemark whose coordinate parsing fails (and whose action extraction
does not raise) is skipped: the accumulator passes through unchanged. -/
theorem processPlacemark_skip {pm : Placemark} {ct : String} {acts : WaypointActions}
    (hc : pm.coordinates = some (some ct))
    (ha : extract_waypoint_actions pm = some acts)
    (hp : parseCoordPrimary (stripList ((splitChar '\n' (stripList ct.data)).headD [])) =
      CoordParse.failed) :
    ∀ acc, processPlacemark acc pm = some acc := by
  intro acc
  unfold processPlacemark
  simp only [hc, ha, hp]

/-- A fallback line satisfying `lineAborts` makes `processFallbackLine`
raise (return `none`), from any accumulator state. -/
theorem processFallbackLine_abort {il : Nat × List Char} (h : lineAborts il.2 = true) :
    ∀ acc, processFallbackLine acc il = none := by
  intro acc
  unfold lineAborts at h
  rw [Bool.and_eq_true] at h
  obtain ⟨hne, hrest⟩ := h
  rw [Bool.not_eq_true'] at hne
  unfold processFallbackLine
  rw [hne]
  simp only [Bool.false_eq_true, if_false]
  cases hsp : splitChar ',' (stripList il.2) with
  | nil => rw [hsp] at hrest; simp [partsAbort] at hrest
  | cons c0 tl =>
    rw [hsp] at hrest
    cases tl with
    | nil => simp [partsAbort] at hrest
    | cons c1 rest =>
      simp only [partsAbort] at hrest
      cases h0 : pyFloatL c0 with
      | none => simp [h0]
      | some lon =>
        rw [h0] at hrest
        cases h1 : pyFloatL c1 with
        | none => simp [h0, h1]
        | some lat =>
          rw [h1] at hrest
          cases rest with
          | nil => simp [Option.isNone] at hrest
          | cons c2 r2 =>
            cases h2 : pyFloatL c2 with
            | none => simp [h0, h1, h2]
            | some alt => simp [h2, Option.isNone] at hrest

/-- C3 counterexample: on the LineString fallback path a coordinate entry
that fails numeric parsing does abort the remaining entries — `lsBadDoc`'s
text has two parseable lines around one bad line, yet extraction returns the
empty sequence, while the same document without the bad line yields both
waypoints. -/
theorem fallback_parse_failure_discards_file :
    extract_coordinates_from_kml lsBadDoc = [] ∧
    (extract_coordinates_from_kml lsGoodDoc).length = 2 :=
  ⟨by decide, by decide⟩

/-- C3 (amended): on the primary point-placemark path, a coordinate entry
whose text fails numeric parsing is skipped (the inner
`except (ValueError, IndexError)`) and extraction of the remaining entries is
unaffected; on the LineString fallback path there is no inner handler, so one
failing entry raises, the outer handler catches it, and the whole file yields
the empty sequence. -/
theorem coordinate_error_handling_per_path :
    (∀ (pms1 pms2 : List Placemark) (pm : Placemark) (acc : List Waypoint)
      (ct : String) (acts : WaypointActions),
      pm.hasPoint = true →
      pm.coordinates = some (some ct) →
      extract_waypoint_actions pm = some acts →
      parseCoordPrimary (stripList ((splitChar '\n' (stripList ct.data)).headD [])) =
        CoordParse.failed →
      ((pms1 ++ pm :: pms2).filter (·.hasPoint)).foldlM processPlacemark acc =
        ((pms1 ++ pms2).filter (·.hasPoint)).foldlM processPlacemark acc) ∧
    (∀ (doc : KmlDoc) (ls : Option (Option String)) (ct : String),
      (doc.placemarks.filter (·.hasPoint)).foldlM processPlacemark [] = some [] →
      ls ∈ doc.linestrings → ls = some (some ct) →
      (∃ il ∈ (splitChar '\n' (stripList ct.data)).enum, lineAborts il.2 = true) →
      extract_coordinates_from_kml doc = []) := by
  constructor
  · intro pms1 pms2 pm acc ct acts hpt hc ha hp
    rw [List.filter_append, List.filter_append, List.filter_cons_of_pos (by simp [hpt]),
      foldlM_opt_append, foldlM_opt_append]
    cases hmid : (pms1.filter (·.hasPoint)).foldlM processPlacemark acc with
    | none => rfl
    | some mid =>
      show List.foldlM processPlacemark mid (pm :: pms2.filter (·.hasPoint)) =
        List.foldlM processPlacemark mid (pms2.filter (·.hasPoint))
      rw [List.foldlM_cons, processPlacemark_skip hc ha hp mid]
      rfl
  · intro doc ls ct hprime hmem hls hbad
    obtain ⟨il, hil, hab⟩ := hbad
    have habls : ∀ acc, processLineString acc ls = none := by
      intro acc
      rw [hls]
      unfold processLineString
      exact foldlM_opt_abort processFallbackLine hil (fun s => processFallbackLine_abort hab s) acc
    unfold extract_coordinates_from_kml
    rw [hprime]
    rw [foldlM_opt_abort processLineString hmem habls []]
    rfl

/-- C3 witness: the skip half applied to a placemark with unparsable
coordinate text between two good ones, and the abort half applied to
`lsBadDoc`. -/
theorem coordinate_error_handling_per_path_witness :
    (([basePlacemark] ++ pmBadCoord :: [basePlacemark]).filter (·.hasPoint)).foldlM
        processPlacemark [] =
      (([basePlacemark] ++ [basePlacemark]).filter (·.hasPoint)).foldlM processPlacemark [] ∧
    extract_coordinates_from_kml lsBadDoc = [] := by
  constructor
  · exact coordinate_error_handling_per_path.1 [basePlacemark] [basePlacemark] pmBadCoord []
      "x,2" defaultActions rfl rfl (by with_unfolding_all decide)
      (by with_unfolding_all decide)
  · exact coordinate_error_handling_per_path.2 lsBadDoc
      (some (some "0,0,0\n0,x,0\n1,1,1")) "0,0,0\n0,x,0\n1,1,1" rfl (by decide) rfl
      (by with_unfolding_all decide)

/-! ### C2 — generation determinism -/

/-- C2 counterexample: with the waypoint sequence, device type and injected
identifier all fixed, the two generators read the ambient clock
(`datetime.now()` at line 339, `time.time()` at line 544), so two invocations
at different clock readings produce different documents even though the
oriented-photo identifier is held fixed.  This refutes the claim that fixing
only that identifier makes regeneration byte-identical. -/
theorem generation_reads_clock :
    create_waylines_wpml [wpBase] "m" "mavic3t" "2025-01-01T00:00:00.000Z" ≠
      create_waylines_wpml [wpBase] "m" "mavic3t" "2025-01-01T00:00:01.000Z" ∧
    create_template_file [wpBase] "mavic3t" 1000 "fixed-uuid" ≠
      create_template_file [wpBase] "mavic3t" 2000 "fixed-uuid" := by
  constructor
  · intro h
    have h2 := congrArg (Option.map WaylineDoc.createTime) h
    simp only [create_waylines_wpml, Option.map_some] at h2
    exact absurd (Option.some.inj h2) (by decide)
  · decide

/-- C2 amended: generation is a pure function of the waypoint/action model,
the device profile, the clock reading and the injected oriented-photo
identifier — two invocations that agree on all of those inputs produce
identical wayline documents and identical template documents. -/
theorem generation_pure_of_model (wps wps' : List Waypoint) (mn mn' dt dt' ct ct' : String)
    (tt tt' : Nat) (u u' : String) (hw : wps = wps') (hmn : mn = mn') (hdt : dt = dt')
    (hct : ct = ct') (htt : tt = tt') (hu : u = u') :
    create_waylines_wpml wps mn dt ct = create_waylines_wpml wps' mn' dt' ct' ∧
    create_template_file wps dt tt u = create_template_file wps' dt' tt' u' := by
  subst hw; subst hmn; subst hdt; subst hct; subst htt; subst hu
  exact ⟨rfl, rfl⟩

/-- C2 witness: the amended determinism theorem applied at a concrete model. -/
theorem generation_pure_of_model_witness :
    create_waylines_wpml [wpBase] "m" "mavic3t" "t" =
      create_waylines_wpml [wpBase] "m" "mavic3t" "t" ∧
    create_template_file [wpBase] "mavic3t" 7 "u" =
      create_template_file [wpBase] "mavic3t" 7 "u" :=
  generation_pure_of_model [wpBase] [wpBase] "m" "m" "mavic3t" "mavic3t" "t" "t" 7 7 "u" "u"
    rfl rfl rfl rfl rfl rfl

/-! ### C6 — wayline action groups -/

/-- The per-waypoint action-group property of the wayline generator: a group
is present exactly when one of the three signals is, and its actions appear in
the fixed hover, photo, video order with gap-free sequential ids from 0. -/
theorem waylineElem_actionGroup (wp : Waypoint) :
    (waylineWaypointElem wp).actionGroup.isSome = hasWaylineSignal wp.actions ∧
    ∀ g, (waylineWaypointElem wp).actionGroup = some g →
      g.actions.map (·.actionId) = List.range g.actions.length ∧
      g.actions.map (·.func) =
        ((if 0 < getHover wp.actions then [WaylineFunc.hovering (getHover wp.actions)]
            else []) ++
          (if photoTruthy wp.actions then [WaylineFunc.takePhoto] else []) ++
          (if videoTruthy wp.actions then [videoFunc wp.actions] else [])) := by
  by_cases hh : 0 < getHover wp.actions <;> cases hp : photoTruthy wp.actions <;>
    cases hv : videoTruthy wp.actions <;>
    refine ⟨?_, fun g hg => ?_⟩ <;>
    simp_all [waylineWaypointElem, hasWaylineSignal, List.range_succ]
  all_goals cases hg
  all_goals simp [List.range_succ]

/-- C6: in the wayline document each waypoint contributes exactly one
`wpml:waypoint` element, and that element carries an action group iff the
waypoint has a photo action, a positive hovering time, or a video action; when
present, the group's actions appear in the fixed hover-photo-video order with
sequential zero-based ids and no gaps, and a waypoint with none of the three
signals has no action group element. -/
theorem wayline_action_groups (wps : List Waypoint) (mn dt ct : String)
    (d : WaylineDoc) (hcr : create_waylines_wpml wps mn dt ct = some d) :
    d.waypoints = wps.map waylineWaypointElem ∧
    ∀ wp ∈ wps,
      (waylineWaypointElem wp).actionGroup.isSome = hasWaylineSignal wp.actions ∧
      ∀ g, (waylineWaypointElem wp).actionGroup = some g →
        g.actions.map (·.actionId) = List.range g.actions.length ∧
        g.actions.map (·.func) =
          ((if 0 < getHover wp.actions then [WaylineFunc.hovering (getHover wp.actions)]
              else []) ++
            (if photoTruthy wp.actions then [WaylineFunc.takePhoto] else []) ++
            (if videoTruthy wp.actions then [videoFunc wp.actions] else [])) := by
  constructor
  · cases wps with
    | nil => exact Option.noConfusion hcr
    | cons w0 rest =>
      rw [create_waylines_unfold] at hcr
      split at hcr
      · exact Option.noConfusion hcr
      · obtain rfl := Option.some.inj hcr
        rfl
  · intro wp _
    exact waylineElem_actionGroup wp

/-- C6 witness: the action-group theorem applied to a one-waypoint document
whose waypoint carries a photo signal. -/
theorem wayline_action_groups_witness :
    ∃ d, create_waylines_wpml [wpPhotoNoHeading] "m" "mavic3t" "t" = some d ∧
      d.waypoints = [wpPhotoNoHeading].map waylineWaypointElem ∧
      (waylineWaypointElem wpPhotoNoHeading).actionGroup.isSome =
        hasWaylineSignal wpPhotoNoHeading.actions := by
  have hz : zeroAverageSpeed [wpPhotoNoHeading] = false := rfl
  cases hcr : create_waylines_wpml [wpPhotoNoHeading] "m" "mavic3t" "t" with
  | none => exact absurd hcr (by simp [create_waylines_unfold, hz])
  | some d =>
    obtain ⟨h1, h2⟩ := wayline_action_groups [wpPhotoNoHeading] "m" "mavic3t" "t" d hcr
    exact ⟨d, rfl, h1, (h2 wpPhotoNoHeading (by simp)).1⟩

/-! ### C4 — distance, mean speed and duration -/

/-- The haversine segment distance is nonnegative. -/
theorem haversineDist_nonneg (lat1 lon1 lat2 lon2 : ℝ) :
    0 ≤ haversineDist lat1 lon1 lat2 lon2 := by
  simp only [haversineDist]
  have h1 : 0 ≤ Real.arcsin (Real.sqrt (Real.sin (radiansOf (lat2 - lat1) / 2) ^ 2 +
      Real.cos (radiansOf lat1) * Real.cos (radiansOf lat2) *
        Real.sin (radiansOf (lon2 - lon1) / 2) ^ 2)) :=
    Real.arcsin_nonneg.mpr (Real.sqrt_nonneg _)
  have h2 : (0 : ℝ) ≤ 2 := by norm_num
  have h3 : (0 : ℝ) ≤ 6371000 := by norm_num
  exact mul_nonneg h3 (mul_nonneg h2 h1)

/-- The accumulated distance is nonnegative. -/
theorem segDistSum_nonneg : ∀ wps : List Waypoint, 0 ≤ segDistSum wps := by
  intro wps
  induction wps with
  | nil => simp [segDistSum]
  | cons a rest ih =>
    cases rest with
    | nil => simp [segDistSum]
    | cons b r2 =>
      rw [segDistSum]
      exact add_nonneg (haversineDist_nonneg _ _ _ _) ih

/-- The loop of lines 351-359 computes the sum, over consecutive waypoint
pairs, of the haversine distance. -/
theorem segDistSum_eq_sum : ∀ wps : List Waypoint,
    segDistSum wps = Finset.sum (Finset.range (wps.length - 1)) (fun i =>
      haversineDist ((wpAt wps i).latitude : ℝ) ((wpAt wps i).longitude : ℝ)
        ((wpAt wps (i+1)).latitude : ℝ) ((wpAt wps (i+1)).longitude : ℝ)) := by
  intro wps
  induction wps with
  | nil => simp [segDistSum]
  | cons a rest ih =>
    cases rest with
    | nil => simp [segDistSum]
    | cons b r2 =>
      rw [segDistSum, ih]
      have hlen : (a :: b :: r2).length - 1 = ((b :: r2).length - 1) + 1 := by simp
      rw [hlen, Finset.sum_range_succ']
      rw [add_comm]
      congr 1

/-- The loop of lines 362-364 sums the `speed` field over all waypoints except
the first. -/
theorem speedSum_eq_sum : ∀ wps : List Waypoint,
    speedSum wps = Finset.sum (Finset.range (wps.length - 1))
      (fun i => getSpeed (wpAt wps (i+1)).actions) := by
  intro wps
  induction wps with
  | nil => simp [speedSum]
  | cons a rest ih =>
    cases rest with
    | nil => simp [speedSum]
    | cons b r2 =>
      rw [speedSum, ih]
      have hlen : (a :: b :: r2).length - 1 = ((b :: r2).length - 1) + 1 := by simp
      rw [hlen, Finset.sum_range_succ']
      rw [add_comm]
      congr 1

/-- The tail speed sum is nonnegative when all speeds are positive. -/
theorem speedSum_nonneg : ∀ wps : List Waypoint,
    (∀ w ∈ wps, 0 < getSpeed w.actions) → 0 ≤ speedSum wps := by
  intro wps
  induction wps with
  | nil => intro _; simp [speedSum]
  | cons a rest ih =>
    intro h
    cases rest with
    | nil => simp [speedSum]
    | cons b r2 =>
      rw [speedSum]
      refine add_nonneg (le_of_lt (h b (by simp))) (ih ?_)
      intro w hw
      exact h w (List.mem_cons_of_mem a hw)

/-- The tail speed sum is positive for at least two waypoints with positive
speeds. -/
theorem speedSum_pos (wps : List Waypoint) (h2 : 2 ≤ wps.length)
    (hs : ∀ w ∈ wps, 0 < getSpeed w.actions) : 0 < speedSum wps := by
  cases wps with
  | nil => simp at h2
  | cons a rest =>
    cases rest with
    | nil => simp at h2
    | cons b r2 =>
      rw [speedSum]
      refine add_pos_of_pos_of_nonneg (hs b (by simp)) (speedSum_nonneg _ ?_)
      intro w hw
      exact hs w (List.mem_cons_of_mem a hw)

/-- For at least two waypoints, the `average_speed` of line 367 is the tail
speed sum divided by the waypoint count minus one. -/
theorem averageSpeed_eq (wps : List Waypoint) (h2 : 2 ≤ wps.length) :
    averageSpeed wps = (speedSum wps : ℝ) / ((wps.length - 1 : Nat) : ℝ) := by
  unfold averageSpeed
  rw [if_pos]
  omega

/-- The mean speed used by the generator is positive when all waypoint speeds
are. -/
theorem averageSpeed_pos (wps : List Waypoint) (h2 : 2 ≤ wps.length)
    (hs : ∀ w ∈ wps, 0 < getSpeed w.actions) : 0 < averageSpeed wps := by
  rw [averageSpeed_eq wps h2]
  refine div_pos ?_ ?_
  · exact_mod_cast speedSum_pos wps h2 hs
  · have : 1 ≤ wps.length - 1 := by omega
    exact_mod_cast Nat.lt_of_lt_of_le Nat.zero_lt_one this

/-- Python truncation distributes over adding a natural number to a
nonnegative value. -/
theorem pyTrunc_add_nat (x : ℝ) (n : Nat) (hx : 0 ≤ x) :
    pyTrunc (x + (n : ℝ)) = pyTrunc x + (n : Int) := by
  unfold pyTrunc
  rw [if_pos hx, if_pos (by positivity)]
  rw [show ((n : ℝ)) = ((n : Int) : ℝ) by push_cast; ring]
  rw [Int.floor_add_int]

/-- C4: for at least two waypoints (with positive per-waypoint speeds), the
wayline document's distance field is the sum over consecutive pairs of the
haversine distance with Earth radius 6371000 m, the mean speed used by the
generator is the arithmetic mean of the `speed` field over all waypoints
except the first, and the duration field is the truncation of
distance / mean speed plus 2 seconds per waypoint (lines 346-371, 411-412). -/
theorem wayline_distance_speed_duration (wps : List Waypoint) (mn dt ct : String)
    (h2 : 2 ≤ wps.length) (hs : ∀ w ∈ wps, 0 < getSpeed w.actions) :
    ∃ d, create_waylines_wpml wps mn dt ct = some d ∧
      d.distance = Finset.sum (Finset.range (wps.length - 1)) (fun i =>
        haversineDist ((wpAt wps i).latitude : ℝ) ((wpAt wps i).longitude : ℝ)
          ((wpAt wps (i+1)).latitude : ℝ) ((wpAt wps (i+1)).longitude : ℝ)) ∧
      averageSpeed wps = (Finset.sum (Finset.range (wps.length - 1))
        (fun i => ((getSpeed (wpAt wps (i+1)).actions : ℚ) : ℝ))) /
          ((wps.length - 1 : Nat) : ℝ) ∧
      d.duration = pyTrunc (d.distance / averageSpeed wps) + 2 * (wps.length : Int) := by
  cases wps with
  | nil => simp at h2
  | cons w0 rest =>
    have hsz : speedSum (w0 :: rest) ≠ 0 := ne_of_gt (speedSum_pos _ h2 hs)
    have hz : zeroAverageSpeed (w0 :: rest) = false := by
      unfold zeroAverageSpeed
      rw [decide_eq_false hsz, Bool.and_false]
    refine ⟨{ createTime := ct
              missionName := mn
              executeHeight := w0.altitude
              distance := segDistSum (w0 :: rest)
              duration := pyTrunc (segDistSum (w0 :: rest) / averageSpeed (w0 :: rest) +
                (((w0 :: rest).length * 2 : Nat) : ℝ))
              lineCoordinates :=
                (w0 :: rest).map fun wp => (wp.longitude, wp.latitude, wp.altitude)
              waypoints := (w0 :: rest).map waylineWaypointElem }, ?_, ?_, ?_, ?_⟩
    · rw [create_waylines_unfold, hz]
      rfl
    · exact segDistSum_eq_sum (w0 :: rest)
    · rw [averageSpeed_eq _ h2, speedSum_eq_sum, Rat.cast_sum]
    · show pyTrunc (segDistSum (w0 :: rest) / averageSpeed (w0 :: rest) +
          (((w0 :: rest).length * 2 : Nat) : ℝ)) =
        pyTrunc (segDistSum (w0 :: rest) / averageSpeed (w0 :: rest)) +
          2 * ((w0 :: rest).length : Int)
      rw [pyTrunc_add_nat _ _ (div_nonneg (segDistSum_nonneg _)
        (le_of_lt (averageSpeed_pos _ h2 hs)))]
      push_cast
      ring

/-- C4 witness: the statistics theorem applied to a concrete two-waypoint
sequence with the default speed. -/
theorem wayline_distance_speed_duration_witness :
    2 ≤ ([wpW0, wpW1] : List Waypoint).length ∧
    (∀ w ∈ ([wpW0, wpW1] : List Waypoint), 0 < getSpeed w.actions) ∧
    (∃ d, create_waylines_wpml [wpW0, wpW1] "m" "mavic3t" "t" = some d ∧
      d.distance = Finset.sum (Finset.range 1) (fun i =>
        haversineDist ((wpAt [wpW0, wpW1] i).latitude : ℝ)
          ((wpAt [wpW0, wpW1] i).longitude : ℝ)
          ((wpAt [wpW0, wpW1] (i+1)).latitude : ℝ)
          ((wpAt [wpW0, wpW1] (i+1)).longitude : ℝ)) ∧
      averageSpeed [wpW0, wpW1] = (Finset.sum (Finset.range 1)
        (fun i => ((getSpeed (wpAt [wpW0, wpW1] (i+1)).actions : ℚ) : ℝ))) / ((1 : Nat) : ℝ) ∧
      d.duration = pyTrunc (d.distance / averageSpeed [wpW0, wpW1]) + 2 * (2 : Int)) :=
  ⟨by decide, by with_unfolding_all decide,
    wayline_distance_speed_duration [wpW0, wpW1] "m" "mavic3t" "t" (by decide)
      (by with_unfolding_all decide)⟩

/-! ### C7 — template yaw-rotate emission -/

/-- C7: the claim (and the source's own comment at line 631, "si hay heading
específico") says a waypoint with no detected heading gets no yaw-rotate
action; but `actions.get('heading', 0)` at line 598 returns the stored Python
`None` (the key is present), `None != 0` is `True`, and the template emits a
`rotateYaw` action whose `aircraftHeading` payload is that `None`.  Evaluated
here on a waypoint with a photo action and no detected heading: the action
group opens with `rotateYaw` carrying `none`. -/
theorem template_rotateYaw_on_unset_heading :
    getHeading wpPhotoNoHeading.actions = none ∧
    (create_template_file [wpPhotoNoHeading] "mavic3t" 0 "uuid-0").map
        (fun d => d.placemarks.map fun p => p.actionGroup.map fun g => g.actions.map (·.func)) =
      some [some [TemplateFunc.rotateYaw none, TemplateFunc.gimbalRotate (-90),
        TemplateFunc.zoom, TemplateFunc.orientedShoot (-90) none "uuid-0" 67]] := by
  exact ⟨rfl, by decide⟩

/-! ### C8 — unrecognized device fallback -/

/-- C8: a device-type string outside the catalog makes both generators behave
exactly as for an explicit `mavic3t` argument (lines 341-344 and 537-541) —
including any raise, which the device type never influences; and whenever
generation for `mavic3t` itself succeeds (nonempty waypoints and no
zero-mean-speed `ZeroDivisionError`), the unknown-device call produces the
same document pair without raising. -/
theorem unknown_drone_defaults_to_mavic3t (drone_type : String)
    (h : droneConfigs drone_type = none) (wps : List Waypoint) (mn ct : String)
    (tt : Nat) (u : String) :
    create_waylines_wpml wps mn drone_type ct = create_waylines_wpml wps mn "mavic3t" ct ∧
    create_template_file wps drone_type tt u = create_template_file wps "mavic3t" tt u ∧
    (wps ≠ [] → zeroAverageSpeed wps = false →
      (create_waylines_wpml wps mn drone_type ct).isSome ∧
      (create_template_file wps drone_type tt u).isSome) := by
  have hres : resolveConfig drone_type = mavic3tConfig := by
    simp [resolveConfig, h]
  have hres2 : resolveConfig "mavic3t" = mavic3tConfig := rfl
  refine ⟨?_, ?_, ?_⟩
  · cases wps with
    | nil => rfl
    | cons w0 rest => rfl
  · simp only [create_template_file, hres, hres2]
  · intro hne hz
    cases wps with
    | nil => exact absurd rfl hne
    | cons w0 rest =>
      refine ⟨?_, by simp [create_template_file]⟩
      rw [create_waylines_unfold, hz]
      rfl

/-- C8 witness: the fallback theorem applied to the unknown identifier
`phantom4` and a concrete waypoint sequence. -/
theorem unknown_drone_defaults_to_mavic3t_witness :
    droneConfigs "phantom4" = none ∧
    (create_waylines_wpml [wpBase] "m" "phantom4" "t" =
        create_waylines_wpml [wpBase] "m" "mavic3t" "t" ∧
      create_template_file [wpBase] "phantom4" 0 "u" =
        create_template_file [wpBase] "mavic3t" 0 "u" ∧
      ([wpBase] ≠ [] → zeroAverageSpeed [wpBase] = false →
        (create_waylines_wpml [wpBase] "m" "phantom4" "t").isSome ∧
        (create_template_file [wpBase] "phantom4" 0 "u").isSome)) :=
  ⟨rfl, unknown_drone_defaults_to_mavic3t "phantom4" rfl [wpBase] "m" "t" 0 "u"⟩

/-! ### C10 — empty extraction guards the generators -/

/-- C10: `create_template_file` reads the first waypoint unconditionally and
is undefined (raises) only on an empty sequence; `convert_kml_to_wpml` returns
its failure result before invoking either generator whenever extraction yields
zero waypoints, so the template generator's empty-list error branch is
unreachable from the conversion entry point: on a nonempty extraction the
template generator always returns a document, and the conversion as a whole
succeeds whenever the wayline generator's zero-mean-speed raise (which the
entry point catches into its failure result) does not fire. -/
theorem convert_blocks_empty_extraction (doc : KmlDoc) (mn dt wt : String) (tt : Nat)
    (u : String) :
    (extract_coordinates_from_kml doc = [] → convert_kml_to_wpml doc mn dt wt tt u = none) ∧
    (extract_coordinates_from_kml doc ≠ [] →
      (create_template_file (extract_coordinates_from_kml doc) dt tt u).isSome ∧
      (zeroAverageSpeed (extract_coordinates_from_kml doc) = false →
        (convert_kml_to_wpml doc mn dt wt tt u).isSome)) := by
  constructor
  · intro h
    simp [convert_kml_to_wpml, h]
  · intro h
    rcases hx : extract_coordinates_from_kml doc with _ | ⟨w0, rest⟩
    · exact absurd hx h
    · refine ⟨by simp [create_template_file], ?_⟩
      intro hz
      simp [convert_kml_to_wpml, hx, create_template_file, create_waylines_unfold, hz]

/-- C10 witness: the guard theorem applied to a document with no usable
geometry (conversion fails) and to one with extractable waypoints (conversion
succeeds, so the generators' empty-list branches are not reached). -/
theorem convert_blocks_empty_extraction_witness :
    convert_kml_to_wpml emptyDoc "m" "mavic3t" "t" 0 "u" = none ∧
    (create_template_file (extract_coordinates_from_kml lsGoodDoc) "mavic3t" 0 "u").isSome ∧
    (convert_kml_to_wpml lsGoodDoc "m" "mavic3t" "t" 0 "u").isSome :=
  ⟨(convert_blocks_empty_extraction emptyDoc "m" "mavic3t" "t" 0 "u").1 (by decide),
   ((convert_blocks_empty_extraction lsGoodDoc "m" "mavic3t" "t" 0 "u").2 (by decide)).1,
   ((convert_blocks_empty_extraction lsGoodDoc "m" "mavic3t" "t" 0 "u").2 (by decide)).2
     (by with_unfolding_all decide)⟩

/-! ### Effect lemmas for the inference tiers -/

/-- A relation preserved by every successful step of an `Option`-valued fold
holds between the initial and final states. -/
theorem foldlM_opt_rel {α : Type} (f : WaypointActions → α → Option WaypointActions)
    (P : WaypointActions → WaypointActions → Prop)
    (hrefl : ∀ a, P a a) (htrans : ∀ a b c, P a b → P b c → P a c) :
    ∀ l : List α, (∀ a x a', x ∈ l → f a x = some a' → P a a') →
      ∀ a a', l.foldlM f a = some a' → P a a' := by
  intro l
  induction l with
  | nil =>
    intro _ a a' h
    rw [List.foldlM_nil] at h
    obtain rfl := Option.some.inj h
    exact hrefl a
  | cons x xs ih =>
    intro hstep a a' h
    rw [List.foldlM_cons] at h
    cases hx : f a x with
    | none =>
      rw [hx] at h
      exact Option.noConfusion h
    | some mid =>
      rw [hx] at h
      have h2 : xs.foldlM f mid = some a' := h
      exact htrans _ _ _ (hstep a x mid (List.mem_cons_self x xs) hx)
        (ih (fun b y b' hy hb => hstep b y b' (List.mem_cons_of_mem _ hy) hb) mid a' h2)

/-- A relation preserved by every step of a total fold holds between the
initial and final states. -/
theorem foldl_rel {α : Type} (f : WaypointActions → α → WaypointActions)
    (P : WaypointActions → WaypointActions → Prop)
    (hrefl : ∀ a, P a a) (htrans : ∀ a b c, P a b → P b c → P a c) :
    ∀ l : List α, (∀ a x, x ∈ l → P a (f a x)) → ∀ a, P a (l.foldl f a) := by
  intro l
  induction l with
  | nil => intro _ a; exact hrefl a
  | cons x xs ih =>
    intro hstep a
    rw [List.foldl_cons]
    exact htrans _ _ _ (hstep a x (List.mem_cons_self x xs))
      (ih (fun b y hy => hstep b y (List.mem_cons_of_mem _ hy)) (f a x))

/-- Branch `descStop` writes `some false` whenever the text contains `continuous` or
`continuo`. -/
theorem descStop_stop_false {dt : String} (a : WaypointActions)
    (hc : (hasSubStr "continuous" dt || hasSubStr "continuo" dt) = true) :
    (descStop dt a).stop_at_waypoint = some false := by
  simp [descStop, hc]

/-- Branch `descStop` writes `some true` on a stop synonym with no continuous
synonym. -/
theorem descStop_stop_true {dt : String} (a : WaypointActions)
    (hnc : (hasSubStr "continuous" dt || hasSubStr "continuo" dt) = false)
    (hs : (hasSubStr "stop" dt || hasSubStr "parada" dt || hasSubStr "hover" dt) = true) :
    (descStop dt a).stop_at_waypoint = some true := by
  simp [descStop, hnc, hs]

/-- Branch `descCamera` never touches `stop_at_waypoint`. -/
theorem descCamera_stop (dt : String) (a : WaypointActions) :
    (descCamera dt a).stop_at_waypoint = a.stop_at_waypoint := by
  unfold descCamera
  split
  · rfl
  · split <;> rfl

/-- Branch `descStop` never touches `video_action`. -/
theorem descStop_video (dt : String) (a : WaypointActions) :
    (descStop dt a).video_action = a.video_action := by
  unfold descStop
  split
  · rfl
  · split <;> rfl

/-- Branch `descCamera` leaves `video_action` unchanged or writes `start` or
`record`. -/
theorem descCamera_video (dt : String) (a : WaypointActions) :
    (descCamera dt a).video_action = a.video_action ∨
    (descCamera dt a).video_action = some (some "start") ∨
    (descCamera dt a).video_action = some (some "record") := by
  unfold descCamera
  split
  · exact Or.inl rfl
  · split
    · by_cases hs : hasSubStr "start" dt
      · simp [hs]
      · simp [hs]
    · exact Or.inl rfl

/-- One `ExtendedData` step: `stop_at_waypoint` is unchanged unless the
element is a stop setter, and `video_action` is unchanged or written to
`start`/`stop`. -/
theorem applyExtElem_effects {a : WaypointActions} {e : XElem} {a' : WaypointActions}
    (h : applyExtElem a e = some a') :
    (a'.stop_at_waypoint = a.stop_at_waypoint ∨ extElemSetsStop e = true) ∧
    (a'.video_action = a.video_action ∨ a'.video_action = some (some "start") ∨
      a'.video_action = some (some "stop")) := by
  unfold applyExtElem at h
  repeat' split at h
  all_goals
    first
      | exact Option.noConfusion h
      | (obtain rfl := Option.some.inj h
         refine ⟨?_, ?_⟩
         · first
             | exact Or.inl rfl
             | (refine Or.inr ?_; simp_all [extElemSetsStop])
         · first
             | exact Or.inl rfl
             | exact Or.inr (Or.inl rfl)
             | exact Or.inr (Or.inr rfl))

/-- One `mis:actions` step touches neither `stop_at_waypoint` nor
`video_action`. -/
theorem applyMisAction_effects (a : WaypointActions) (e : Option String × Option String) :
    (applyMisAction a e).stop_at_waypoint = a.stop_at_waypoint ∧
    (applyMisAction a e).video_action = a.video_action := by
  unfold applyMisAction
  split <;> exact ⟨rfl, rfl⟩

/-- One `mis:speed` step touches neither `stop_at_waypoint` nor
`video_action`. -/
theorem applyMisSpeed_effects {a : WaypointActions} {t : Option String}
    {a' : WaypointActions} (h : applyMisSpeed a t = some a') :
    a'.stop_at_waypoint = a.stop_at_waypoint ∧ a'.video_action = a.video_action := by
  unfold applyMisSpeed at h
  repeat' split at h
  all_goals
    first
      | exact Option.noConfusion h
      | (obtain rfl := Option.some.inj h; exact ⟨rfl, rfl⟩)

/-- One `mis:gimbalPitch` step touches neither `stop_at_waypoint` nor
`video_action`. -/
theorem applyMisGimbal_effects {a : WaypointActions} {t : Option String}
    {a' : WaypointActions} (h : applyMisGimbal a t = some a') :
    a'.stop_at_waypoint = a.stop_at_waypoint ∧ a'.video_action = a.video_action := by
  unfold applyMisGimbal at h
  repeat' split at h
  all_goals
    first
      | exact Option.noConfusion h
      | (obtain rfl := Option.some.inj h; exact ⟨rfl, rfl⟩)

/-- One `mis:heading` step touches neither `stop_at_waypoint` nor
`video_action`. -/
theorem applyMisHeading_effects {a : WaypointActions} {t : Option String}
    {a' : WaypointActions} (h : applyMisHeading a t = some a') :
    a'.stop_at_waypoint = a.stop_at_waypoint ∧ a'.video_action = a.video_action := by
  unfold applyMisHeading at h
  repeat' split at h
  all_goals
    first
      | exact Option.noConfusion h
      | (obtain rfl := Option.some.inj h; exact ⟨rfl, rfl⟩)

/-- One `kml:Data` step: `stop_at_waypoint` is unchanged unless the entry is
a stop setter, and `video_action` is never touched. -/
theorem applyDataEntry_effects {a : WaypointActions} {d : DataEntry}
    {a' : WaypointActions} (h : applyDataEntry a d = some a') :
    (a'.stop_at_waypoint = a.stop_at_waypoint ∨ dataEntrySetsStop d = true) ∧
    a'.video_action = a.video_action := by
  unfold applyDataEntry at h
  repeat' split at h
  all_goals
    first
      | exact Option.noConfusion h
      | (obtain rfl := Option.some.inj h
         refine ⟨?_, ?_⟩
         · first
             | exact Or.inl rfl
             | (refine Or.inr ?_; simp_all [dataEntrySetsStop])
         · rfl)

/-- One `mis:pointType` step writes the entry's verdict to
`stop_at_waypoint` when there is one, and leaves it unchanged otherwise. -/
theorem applyMisPointType_stop (a : WaypointActions) (t : Option String) :
    (applyMisPointType a t).stop_at_waypoint =
      (match ptVerdict t with
       | some b => some b
       | none => a.stop_at_waypoint) := by
  unfold applyMisPointType ptVerdict
  cases t with
  | none => rfl
  | some s =>
    by_cases h1 : s == ""
    · simp [h1]
    · by_cases h2 : lowerStr s == "linestop"
      · simp [h1, h2]
      · by_cases h3 : lowerStr s == "line"
        · simp [h1, h2, h3]
        · simp [h1, h2, h3]

/-- One `mis:pointType` step never touches `video_action`. -/
theorem applyMisPointType_video (a : WaypointActions) (t : Option String) :
    (applyMisPointType a t).video_action = a.video_action := by
  unfold applyMisPointType
  repeat' split
  all_goals rfl

/-- A stop-silent `ExtendedData` fold preserves `stop_at_waypoint`. -/
theorem foldExt_stop {es : List XElem} (hsil : ∀ e ∈ es, extElemSetsStop e = false) :
    ∀ a a', es.foldlM applyExtElem a = some a' →
      a'.stop_at_waypoint = a.stop_at_waypoint :=
  foldlM_opt_rel applyExtElem (fun x y => y.stop_at_waypoint = x.stop_at_waypoint)
    (fun _ => rfl) (fun _ _ _ p q => q.trans p) es
    (fun _ e _ he hb => (applyExtElem_effects hb).1.resolve_right
      (fun ht => by rw [hsil e he] at ht; exact Bool.noConfusion ht))

/-- The `ExtendedData` fold preserves the `video_action` vocabulary
invariant. -/
theorem foldExt_videoOK (es : List XElem) :
    ∀ a a', es.foldlM applyExtElem a = some a' →
      videoOK a.video_action → videoOK a'.video_action :=
  foldlM_opt_rel applyExtElem (fun x y => videoOK x.video_action → videoOK y.video_action)
    (fun _ hx => hx) (fun _ _ _ p q hx => q (p hx)) es
    (fun b e b' _ hb hok => by
      rcases (applyExtElem_effects hb).2 with heq | heq | heq
      · rw [heq]; exact hok
      · intro s hs
        rw [heq] at hs
        obtain rfl := Option.some.inj (Option.some.inj hs)
        exact Or.inl rfl
      · intro s hs
        rw [heq] at hs
        obtain rfl := Option.some.inj (Option.some.inj hs)
        exact Or.inr (Or.inr rfl))

/-- The `mis:speed` fold touches neither `stop_at_waypoint` nor
`video_action`. -/
theorem foldMisSpeed_effects (l : List (Option String)) :
    ∀ a a', l.foldlM applyMisSpeed a = some a' →
      a'.stop_at_waypoint = a.stop_at_waypoint ∧ a'.video_action = a.video_action :=
  foldlM_opt_rel applyMisSpeed
    (fun x y => y.stop_at_waypoint = x.stop_at_waypoint ∧ y.video_action = x.video_action)
    (fun _ => ⟨rfl, rfl⟩) (fun _ _ _ p q => ⟨q.1.trans p.1, q.2.trans p.2⟩) l
    (fun _ _ _ _ hb => applyMisSpeed_effects hb)

/-- The `mis:gimbalPitch` fold touches neither `stop_at_waypoint` nor
`video_action`. -/
theorem foldMisGimbal_effects (l : List (Option String)) :
    ∀ a a', l.foldlM applyMisGimbal a = some a' →
      a'.stop_at_waypoint = a.stop_at_waypoint ∧ a'.video_action = a.video_action :=
  foldlM_opt_rel applyMisGimbal
    (fun x y => y.stop_at_waypoint = x.stop_at_waypoint ∧ y.video_action = x.video_action)
    (fun _ => ⟨rfl, rfl⟩) (fun _ _ _ p q => ⟨q.1.trans p.1, q.2.trans p.2⟩) l
    (fun _ _ _ _ hb => applyMisGimbal_effects hb)

/-- The `mis:heading` fold touches neither `stop_at_waypoint` nor
`video_action`. -/
theorem foldMisHeading_effects (l : List (Option String)) :
    ∀ a a', l.foldlM applyMisHeading a = some a' →
      a'.stop_at_waypoint = a.stop_at_waypoint ∧ a'.video_action = a.video_action :=
  foldlM_opt_rel applyMisHeading
    (fun x y => y.stop_at_waypoint = x.stop_at_waypoint ∧ y.video_action = x.video_action)
    (fun _ => ⟨rfl, rfl⟩) (fun _ _ _ p q => ⟨q.1.trans p.1, q.2.trans p.2⟩) l
    (fun _ _ _ _ hb => applyMisHeading_effects hb)

/-- The `mis:actions` fold touches neither `stop_at_waypoint` nor
`video_action`. -/
theorem foldMisActions_effects (l : List (Option String × Option String))
    (a : WaypointActions) :
    (l.foldl applyMisAction a).stop_at_waypoint = a.stop_at_waypoint ∧
    (l.foldl applyMisAction a).video_action = a.video_action :=
  foldl_rel applyMisAction
    (fun x y => y.stop_at_waypoint = x.stop_at_waypoint ∧ y.video_action = x.video_action)
    (fun _ => ⟨rfl, rfl⟩) (fun _ _ _ p q => ⟨q.1.trans p.1, q.2.trans p.2⟩) l
    (fun b e _ => applyMisAction_effects b e) a

/-- The `mis:pointType` fold writes the last verdict to `stop_at_waypoint`,
or preserves it when the run carries no verdict. -/
theorem foldMisPointType_stop : ∀ (l : List (Option String)) (a : WaypointActions),
    (l.foldl applyMisPointType a).stop_at_waypoint =
      (match lastVerdict l with
       | some b => some b
       | none => a.stop_at_waypoint) := by
  intro l
  induction l with
  | nil => intro a; rfl
  | cons t ts ih =>
    intro a
    rw [List.foldl_cons, ih, applyMisPointType_stop]
    cases hlv : lastVerdict ts with
    | some b =>
      have h2 : lastVerdict (t :: ts) = some b := by
        unfold lastVerdict
        rw [hlv]
      rw [h2]
    | none =>
      have h2 : lastVerdict (t :: ts) = ptVerdict t := by
        unfold lastVerdict
        rw [hlv]
      rw [h2]

/-- The `mis:pointType` fold never touches `video_action`. -/
theorem foldMisPointType_video (l : List (Option String)) (a : WaypointActions) :
    (l.foldl applyMisPointType a).video_action = a.video_action :=
  (foldl_rel applyMisPointType (fun x y => y.video_action = x.video_action)
    (fun _ => rfl) (fun _ _ _ p q => q.trans p) l
    (fun b t _ => applyMisPointType_video b t) a)

/-- A stop-silent `kml:Data` fold preserves `stop_at_waypoint`. -/
theorem foldData_stop {ds : List DataEntry} (hsil : ∀ d ∈ ds, dataEntrySetsStop d = false) :
    ∀ a a', ds.foldlM applyDataEntry a = some a' →
      a'.stop_at_waypoint = a.stop_at_waypoint :=
  foldlM_opt_rel applyDataEntry (fun x y => y.stop_at_waypoint = x.stop_at_waypoint)
    (fun _ => rfl) (fun _ _ _ p q => q.trans p) ds
    (fun _ d _ hd hb => (applyDataEntry_effects hb).1.resolve_right
      (fun ht => by rw [hsil d hd] at ht; exact Bool.noConfusion ht))

/-- The `kml:Data` fold never touches `video_action`. -/
theorem foldData_video (ds : List DataEntry) :
    ∀ a a', ds.foldlM applyDataEntry a = some a' →
      a'.video_action = a.video_action :=
  foldlM_opt_rel applyDataEntry (fun x y => y.video_action = x.video_action)
    (fun _ => rfl) (fun _ _ _ p q => q.trans p) ds
    (fun _ _ _ _ hb => (applyDataEntry_effects hb).2)

/-- A `mis:pointType` run whose entries all lack a verdict has no last
verdict. -/
theorem lastVerdict_none {l : List (Option String)}
    (h : l.all (fun t => (ptVerdict t).isNone) = true) : lastVerdict l = none := by
  induction l with
  | nil => rfl
  | cons t ts ih =>
    rw [List.all_cons, Bool.and_eq_true] at h
    obtain ⟨h1, h2⟩ := h
    unfold lastVerdict
    rw [ih h2]
    cases hv : ptVerdict t with
    | none => rfl
    | some b =>
      rw [hv] at h1
      exact absurd h1 (by simp)

/-- Decomposition of a successful `extract_waypoint_actions` run into its
tier results. -/
theorem extract_bind_decomp {pm : Placemark} {a : WaypointActions}
    (h : extract_waypoint_actions pm = some a) :
    ∃ a2 a4 a6 a7,
      (match pm.extendedData with
       | some ed => ed.elems.foldlM applyExtElem (applyDesc pm.description defaultActions)
       | none => some (applyDesc pm.description defaultActions)) = some a2 ∧
      pm.misSpeed.foldlM applyMisSpeed (pm.misActions.foldl applyMisAction a2) = some a4 ∧
      pm.misGimbalPitch.foldlM applyMisGimbal
        (pm.misPointType.foldl applyMisPointType a4) = some a6 ∧
      pm.misHeading.foldlM applyMisHeading a6 = some a7 ∧
      (match pm.extendedData with
       | some ed => ed.dataEntries.foldlM applyDataEntry a7
       | none => some a7) = some a := by
  unfold extract_waypoint_actions at h
  obtain ⟨a2, h2, h⟩ := Option.bind_eq_some.mp h
  obtain ⟨a4, h4, h⟩ := Option.bind_eq_some.mp h
  obtain ⟨a6, h6, h⟩ := Option.bind_eq_some.mp h
  obtain ⟨a7, h7, h⟩ := Option.bind_eq_some.mp h
  exact ⟨a2, a4, a6, a7, h2, h4, h6, h7, h⟩

/-- When the vendor tiers and the generic data tier carry no
`stop_at_waypoint` signal, the extracted value is the one set by the
description tier. -/
theorem extract_stop_of_silent {pm : Placemark} {a : WaypointActions}
    (hex : extract_waypoint_actions pm = some a)
    (hext : extStopSilent pm = true) (hpt : misPtSilent pm = true)
    (hdata : dataStopSilent pm = true) :
    a.stop_at_waypoint = (applyDesc pm.description defaultActions).stop_at_waypoint := by
  obtain ⟨a2, a4, a6, a7, h2, h4, h6, h7, hfin⟩ := extract_bind_decomp hex
  have ha2 : a2.stop_at_waypoint =
      (applyDesc pm.description defaultActions).stop_at_waypoint := by
    cases hed : pm.extendedData with
    | none =>
      rw [hed] at h2
      obtain rfl := Option.some.inj h2
      rfl
    | some ed =>
      rw [hed] at h2
      refine foldExt_stop ?_ _ _ h2
      intro e he
      unfold extStopSilent at hext
      rw [hed] at hext
      have := List.all_eq_true.mp hext e he
      simpa using this
  have ha4 : a4.stop_at_waypoint = a2.stop_at_waypoint :=
    ((foldMisSpeed_effects _ _ _ h4).1).trans (foldMisActions_effects _ _).1
  have ha5 : (pm.misPointType.foldl applyMisPointType a4).stop_at_waypoint =
      a4.stop_at_waypoint := by
    rw [foldMisPointType_stop, lastVerdict_none hpt]
  have ha6 : a6.stop_at_waypoint = a4.stop_at_waypoint :=
    ((foldMisGimbal_effects _ _ _ h6).1).trans ha5
  have ha7 : a7.stop_at_waypoint = a6.stop_at_waypoint :=
    (foldMisHeading_effects _ _ _ h7).1
  have hafin : a.stop_at_waypoint = a7.stop_at_waypoint := by
    cases hed : pm.extendedData with
    | none =>
      rw [hed] at hfin
      obtain rfl := Option.some.inj hfin
      rfl
    | some ed =>
      rw [hed] at hfin
      refine foldData_stop ?_ _ _ hfin
      intro d hd
      unfold dataStopSilent at hdata
      rw [hed] at hdata
      have := List.all_eq_true.mp hdata d hd
      simpa using this
  rw [hafin, ha7, ha6, ha4, ha2]

/-- When the `mis:pointType` tier carries a verdict and the generic data tier
is stop-silent, that verdict is the extracted `stop_at_waypoint` regardless of
the earlier tiers. -/
theorem extract_stop_of_verdict {pm : Placemark} {a : WaypointActions} {b : Bool}
    (hex : extract_waypoint_actions pm = some a)
    (hv : lastVerdict pm.misPointType = some b)
    (hdata : dataStopSilent pm = true) :
    a.stop_at_waypoint = some b := by
  obtain ⟨a2, a4, a6, a7, h2, h4, h6, h7, hfin⟩ := extract_bind_decomp hex
  have ha5 : (pm.misPointType.foldl applyMisPointType a4).stop_at_waypoint = some b := by
    rw [foldMisPointType_stop, hv]
  have ha6 : a6.stop_at_waypoint = some b :=
    ((foldMisGimbal_effects _ _ _ h6).1).trans ha5
  have ha7 : a7.stop_at_waypoint = some b :=
    ((foldMisHeading_effects _ _ _ h7).1).trans ha6
  cases hed : pm.extendedData with
  | none =>
    rw [hed] at hfin
    obtain rfl := Option.some.inj hfin
    exact ha7
  | some ed =>
    rw [hed] at hfin
    refine Eq.trans (foldData_stop ?_ _ _ hfin) ha7
    intro d hd
    unfold dataStopSilent at hdata
    rw [hed] at hdata
    have := List.all_eq_true.mp hdata d hd
    simpa using this

/-- The description tier preserves the `video_action` vocabulary invariant:
it leaves the field alone or writes `start` or `record`. -/
theorem applyDesc_videoOK (desc : Option String) (a : WaypointActions)
    (ha : videoOK a.video_action) : videoOK (applyDesc desc a).video_action := by
  unfold applyDesc
  cases desc with
  | none => exact ha
  | some s =>
    show videoOK
      (if (s == "") = true then a
       else descCamera (lowerStr s) (descStop (lowerStr s) a)).video_action
    by_cases hse : (s == "") = true
    · rw [if_pos hse]
      exact ha
    · rw [if_neg hse]
      rcases descCamera_video (lowerStr s) (descStop (lowerStr s) a) with heq | heq | heq
      · rw [heq, descStop_video]
        exact ha
      · intro t ht
        rw [heq] at ht
        obtain rfl := Option.some.inj (Option.some.inj ht)
        exact Or.inl rfl
      · intro t ht
        rw [heq] at ht
        obtain rfl := Option.some.inj (Option.some.inj ht)
        exact Or.inr (Or.inl rfl)

/-- Every value `extract_waypoint_actions` stores under `video_action` is
`start`, `record` or `stop`. -/
theorem extract_videoOK_master {pm : Placemark} {a : WaypointActions}
    (hex : extract_waypoint_actions pm = some a) : videoOK a.video_action := by
  obtain ⟨a2, a4, a6, a7, h2, h4, h6, h7, hfin⟩ := extract_bind_decomp hex
  have h1 : videoOK (applyDesc pm.description defaultActions).video_action :=
    applyDesc_videoOK pm.description defaultActions
      (fun s hs => Option.noConfusion (Option.some.inj hs))
  have hok2 : videoOK a2.video_action := by
    cases hed : pm.extendedData with
    | none =>
      rw [hed] at h2
      obtain rfl := Option.some.inj h2
      exact h1
    | some ed =>
      rw [hed] at h2
      exact foldExt_videoOK ed.elems _ _ h2 h1
  have hok4 : videoOK a4.video_action := by
    rw [(foldMisSpeed_effects _ _ _ h4).2, (foldMisActions_effects _ _).2]
    exact hok2
  have hok6 : videoOK a6.video_action := by
    rw [(foldMisGimbal_effects _ _ _ h6).2, foldMisPointType_video]
    exact hok4
  have hok7 : videoOK a7.video_action := by
    rw [(foldMisHeading_effects _ _ _ h7).2]
    exact hok6
  cases hed : pm.extendedData with
  | none =>
    rw [hed] at hfin
    obtain rfl := Option.some.inj hfin
    exact hok7
  | some ed =>
    rw [hed] at hfin
    rw [foldData_video ed.dataEntries _ _ hfin]
    exact hok7

/-- Leading-segment recognition is transitive. -/
theorem leadsWith_trans : ∀ (n1 n2 l : List Char), leadsWith n1 n2 = true →
    leadsWith n2 l = true → leadsWith n1 l = true := by
  intro n1
  induction n1 with
  | nil => intro n2 l _ _; rfl
  | cons a as ih =>
    intro n2 l h12 h2l
    cases n2 with
    | nil => exact Bool.noConfusion h12
    | cons b bs =>
      cases l with
      | nil => exact Bool.noConfusion h2l
      | cons c cs =>
        simp only [leadsWith, Bool.and_eq_true] at h12 h2l ⊢
        obtain ⟨hab, has⟩ := h12
        obtain ⟨hbc, hbs⟩ := h2l
        refine ⟨?_, ih bs cs has hbs⟩
        have e1 : a = b := by simpa using hab
        have e2 : b = c := by simpa using hbc
        simp [e1, e2]

/-- A substring occurrence of a longer needle gives one of any of its leading
segments. -/
theorem hasSub_of_leadsWith (n1 n2 : List Char) (hpre : leadsWith n1 n2 = true) :
    ∀ l, hasSubList n2 l = true → hasSubList n1 l = true := by
  intro l
  induction l with
  | nil =>
    intro h
    simp only [hasSubList] at h ⊢
    exact leadsWith_trans n1 n2 [] hpre h
  | cons c cs ih =>
    intro h
    simp only [hasSubList, Bool.or_eq_true] at h ⊢
    rcases h with h | h
    · exact Or.inl (leadsWith_trans _ _ _ hpre h)
    · exact Or.inr (ih h)

/-- Any text containing `continuous` contains `continuo`. -/
theorem continuous_has_continuo {l : List Char}
    (h : hasSubList ("continuous".data) l = true) :
    hasSubList ("continuo".data) l = true :=
  hasSub_of_leadsWith ("continuo".data) ("continuous".data) (by decide) l h

/-- Any string containing `continuous` contains `continuo`. -/
theorem hasSubStr_continuous_continuo {s : String}
    (h : hasSubStr "continuous" s = true) : hasSubStr "continuo" s = true :=
  continuous_has_continuo h

/-! ### C5 — stop/continuous inference and vendor precedence -/

/-- C5 counterexample: the description `stop continuo` contains `stop` and
does not contain `continuous`, yet the inference engine yields
`stop_at_waypoint = false`, because line 108 also matches the Spanish stem
`continuo` and that branch shadows the stop branch. -/
theorem stop_keyword_with_continuo :
    hasSubStr "stop" (lowerStr "stop continuo") = true ∧
    hasSubStr "continuous" (lowerStr "stop continuo") = false ∧
    (extract_waypoint_actions pmStopContinuo).map (·.stop_at_waypoint) =
      some (some false) :=
  ⟨by decide, by decide, by with_unfolding_all decide⟩

/-- C5 (amended): with the vendor and data tiers stop-silent, a description
containing `continuous` yields `stop_at_waypoint = false`, and one containing
`stop` but neither `continuous` nor its Spanish stem `continuo` yields `true`;
and whenever the later-evaluated `mis:pointType` vendor tier carries a verdict
(and the data tier is stop-silent), that verdict is the final value regardless
of the description. -/
theorem stop_inference_precedence :
    (∀ (pm : Placemark) (a : WaypointActions) (s : String),
      pm.description = some s → s ≠ "" →
      hasSubStr "continuous" (lowerStr s) = true →
      extStopSilent pm = true → misPtSilent pm = true → dataStopSilent pm = true →
      extract_waypoint_actions pm = some a →
      a.stop_at_waypoint = some false) ∧
    (∀ (pm : Placemark) (a : WaypointActions) (s : String),
      pm.description = some s → s ≠ "" →
      hasSubStr "stop" (lowerStr s) = true →
      hasSubStr "continuo" (lowerStr s) = false →
      extStopSilent pm = true → misPtSilent pm = true → dataStopSilent pm = true →
      extract_waypoint_actions pm = some a →
      a.stop_at_waypoint = some true) ∧
    (∀ (pm : Placemark) (a : WaypointActions) (b : Bool),
      lastVerdict pm.misPointType = some b →
      dataStopSilent pm = true →
      extract_waypoint_actions pm = some a →
      a.stop_at_waypoint = some b) := by
  refine ⟨?_, ?_, ?_⟩
  · intro pm a s hdesc hne hc hext hpt hdata hex
    rw [extract_stop_of_silent hex hext hpt hdata, hdesc]
    unfold applyDesc
    show (if (s == "") = true then defaultActions
        else descCamera (lowerStr s) (descStop (lowerStr s) defaultActions)).stop_at_waypoint =
      some false
    rw [if_neg (by simp [hne])]
    rw [descCamera_stop]
    exact descStop_stop_false _ (by simp [hc])
  · intro pm a s hdesc hne hs hnc hext hpt hdata hex
    have hncc : hasSubStr "continuous" (lowerStr s) = false := by
      cases hcc : hasSubStr "continuous" (lowerStr s) with
      | false => rfl
      | true =>
        have h2 := hasSubStr_continuous_continuo hcc
        rw [hnc] at h2
        exact Bool.noConfusion h2
    rw [extract_stop_of_silent hex hext hpt hdata, hdesc]
    unfold applyDesc
    show (if (s == "") = true then defaultActions
        else descCamera (lowerStr s) (descStop (lowerStr s) defaultActions)).stop_at_waypoint =
      some true
    rw [if_neg (by simp [hne])]
    rw [descCamera_stop]
    exact descStop_stop_true _ (by simp [hncc, hnc]) (by simp [hs])
  · intro pm a b hv hdata hex
    exact extract_stop_of_verdict hex hv hdata

/-- C5 witness: the amended theorem applied to a `continuous` description with
silent vendor tiers, and to a `stop` description overridden by a vendor
`mis:pointType` element saying `line`. -/
theorem stop_inference_precedence_witness :
    extract_waypoint_actions pmContinuous = some stopFalseActs ∧
    stopFalseActs.stop_at_waypoint = some false ∧
    extract_waypoint_actions pmVendorStop = some stopFalseActs ∧
    lastVerdict pmVendorStop.misPointType = some false := by
  have hex1 : extract_waypoint_actions pmContinuous = some stopFalseActs := by
    with_unfolding_all decide
  have hex3 : extract_waypoint_actions pmVendorStop = some stopFalseActs := by
    with_unfolding_all decide
  refine ⟨hex1, ?_, hex3, by decide⟩
  have h2 := stop_inference_precedence.2.2 pmVendorStop stopFalseActs false (by decide)
    rfl hex3
  exact stop_inference_precedence.1 pmContinuous stopFalseActs "continuous" rfl
    (by decide) (by decide) rfl rfl rfl hex1

/-! ### C9 — video action vocabulary and dispatch -/

/-- C9 counterexample: a description containing just `video` makes the
inference engine store `record` (line 120), a value outside the declared
`start`/`stop` vocabulary. -/
theorem description_video_yields_record :
    (extract_waypoint_actions pmVideoOnly).map (·.video_action) =
      some (some (some "record")) ∧
    ¬ ("record" = "start" ∨ "record" = "stop") :=
  ⟨by with_unfolding_all decide, by decide⟩

/-- C9 (amended): every value the inference engine stores under
`video_action` is `start`, `record` or `stop` (the description tier can write
`record`, beyond the declared `start`/`stop` vocabulary), and the wayline
generator's record dispatch is total on these values: `start` maps to
`startRecord` and everything else to `stopRecord`. -/
theorem video_action_vocabulary :
    (∀ (pm : Placemark) (a : WaypointActions) (s : String),
      extract_waypoint_actions pm = some a →
      a.video_action = some (some s) →
      s = "start" ∨ s = "record" ∨ s = "stop") ∧
    (∀ a : WaypointActions,
      videoFunc a = WaylineFunc.startRecord ∨ videoFunc a = WaylineFunc.stopRecord) := by
  constructor
  · intro pm a s hex hv
    exact extract_videoOK_master hex s hv
  · intro a
    unfold videoFunc
    split
    · exact Or.inl rfl
    · exact Or.inr rfl

/-- C9 witness: the vocabulary theorem applied to the `video` description,
whose stored value is `record`. -/
theorem video_action_vocabulary_witness :
    extract_waypoint_actions pmVideoOnly = some videoRecordActs ∧
    ("record" = "start" ∨ "record" = "record" ∨ "record" = "stop") ∧
    (videoFunc videoRecordActs = WaylineFunc.startRecord ∨
      videoFunc videoRecordActs = WaylineFunc.stopRecord) := by
  have hex : extract_waypoint_actions pmVideoOnly = some videoRecordActs := by
    with_unfolding_all decide
  exact ⟨hex, video_action_vocabulary.1 pmVideoOnly videoRecordActs "record" hex rfl,
    video_action_vocabulary.2 videoRecordActs⟩

end KmlConv
